import Mathlib

/-
  Verification of the StudySprint2 Study Session Timer & Analytics Engine.

  Shallow embedding of backend/app/services/timer_service.py and the model
  methods of backend/app/models/consolidated.py (StudySession, PageTime,
  PomodoroSession, ReadingSpeed, UserStatistic, PDF, Topic).

  Conventions:
  - Timestamps are rationals, measured in seconds (the injected clock is a
    `now : Rat` parameter of every operation that reads wall-clock time).
  - Python float arithmetic is modelled with exact rationals.
  - Python `int(x)` truncates toward zero: `pyInt`.
  - Python `round(x, 2)` rounds half to even: `round2`.
  - SQLAlchemy sessions: each service operation takes the database state and
    returns `Except SError (result × DB)`; raising HTTPException corresponds
    to `Except.error`, and since the transaction is then never committed, an
    error leaves the database state unchanged.
  - JSON audit metadata (pause_reasons, resume_times, scroll_positions,
    environmental_factors, achievements_unlocked) is not modelled; no claim
    mentions it.
-/

/-- Python int() conversion: truncation toward zero. -/
def pyInt (x : Rat) : Int :=
  if 0 ≤ x then ⌊x⌋ else -⌊-x⌋

/-- Python round-half-to-even of a rational to the nearest integer. -/
def roundHalfEven (x : Rat) : Int :=
  if x - (⌊x⌋ : Rat) < 1/2 then ⌊x⌋
  else if 1/2 < x - (⌊x⌋ : Rat) then ⌊x⌋ + 1
  else if ⌊x⌋ % 2 = 0 then ⌊x⌋ else ⌊x⌋ + 1

/-- Python round(x, 2): round half to even at two decimal places. -/
def round2 (x : Rat) : Rat :=
  (roundHalfEven (100 * x) : Rat) / 100

/-
  Data model, from backend/app/models/consolidated.py.
  Identifiers are Nat (opaque UUIDs in the source); integer columns are Int;
  DECIMAL columns are Rat; nullable columns are Option.
-/

/-- StudySession row (models/consolidated.py, class StudySession). -/
structure StudySession where
  id : Nat
  user_id : Nat
  pdf_id : Nat
  topic_id : Nat
  session_type : String
  start_time : Rat
  end_time : Option Rat
  total_minutes : Int
  active_minutes : Int
  idle_minutes : Int
  pages_visited : Int
  pages_completed : Int
  clicks_count : Int
  scroll_events : Int
  interruptions : Int
  pomodoro_cycles : Int
  planned_cycles : Int
  focus_score : Rat
  productivity_score : Rat
  comprehension_score : Rat
  xp_earned : Int
  is_active : Bool
  is_paused : Bool
  pause_count : Int
  notes : Option String
  session_rating : Option Int
  is_deleted : Bool
deriving DecidableEq

/-- PageTime row (models/consolidated.py, class PageTime). -/
structure PageTime where
  id : Nat
  session_id : Nat
  pdf_id : Nat
  page_number : Int
  start_time : Rat
  end_time : Option Rat
  duration_seconds : Int
  active_time_seconds : Int
  idle_time_seconds : Int
  activity_count : Int
  click_count : Int
  scroll_count : Int
  zoom_changes : Int
  reading_speed_wpm : Option Rat
  estimated_words : Int
  difficulty_rating : Int
  comprehension_estimate : Rat
  notes_created : Int
  highlights_made : Int
  bookmarks_added : Int
deriving DecidableEq

/-- PomodoroSession row (models/consolidated.py, class PomodoroSession). -/
structure PomodoroSession where
  id : Nat
  study_session_id : Nat
  cycle_number : Int
  cycle_type : String
  planned_duration_minutes : Int
  actual_duration_minutes : Int
  started_at : Rat
  completed_at : Option Rat
  completed : Bool
  interrupted : Bool
  interruptions : Int
  effectiveness_rating : Option Int
  productivity_score : Rat
  focus_score : Rat
  xp_earned : Int
deriving DecidableEq

/-- ReadingSpeed row (models/consolidated.py, class ReadingSpeed). -/
structure ReadingSpeed where
  user_id : Nat
  pdf_id : Option Nat
  topic_id : Option Nat
  session_id : Option Nat
  pages_per_minute : Rat
  words_per_minute : Rat
  characters_per_minute : Rat
  content_type : String
  difficulty_level : Int
  estimated_words : Int
  time_of_day : Int
  day_of_week : Int
  session_duration : Int
deriving DecidableEq

/-- UserStatistic row, the columns touched by the timer service. -/
structure UserStatistic where
  user_id : Nat
  stat_type : String
  stat_date : Rat
  total_study_minutes : Int
  total_active_minutes : Int
  total_sessions : Int
  pages_read : Int
  pomodoro_cycles_completed : Int
  xp_earned : Int
  average_focus_score : Rat
  average_productivity_score : Rat
deriving DecidableEq

/-- PDF row, the columns read or written by the timer service. -/
structure PDF where
  id : Nat
  user_id : Nat
  total_pages : Int
  current_page : Int
  difficulty_rating : Int
  actual_read_time : Int
  view_count : Int
  last_viewed_at : Option Rat
  is_deleted : Bool
deriving DecidableEq

/-- Topic row, the columns read or written by the timer service. -/
structure Topic where
  id : Nat
  user_id : Nat
  total_study_time : Int
  last_studied_at : Option Rat
deriving DecidableEq

/-- The persistent store: one list per entity, plus a fresh-id counter
standing for primary-key generation. -/
structure DB where
  sessions : List StudySession
  pageTimes : List PageTime
  pomodoros : List PomodoroSession
  pdfs : List PDF
  topics : List Topic
  readingSpeeds : List ReadingSpeed
  userStats : List UserStatistic
  nextId : Nat
deriving DecidableEq

/-- Error taxonomy of the service layer: HTTPException 404 and 400. -/
inductive SError where
  | notFound (detail : String)
  | badRequest (detail : String)
deriving DecidableEq

instance {e a : Type} [DecidableEq e] [DecidableEq a] : DecidableEq (Except e a) := fun x y =>
  match x, y with
  | Except.ok x1, Except.ok y1 =>
    if h : x1 = y1 then isTrue (by rw [h]) else isFalse (by intro hc; injection hc; contradiction)
  | Except.error x1, Except.error y1 =>
    if h : x1 = y1 then isTrue (by rw [h]) else isFalse (by intro hc; injection hc; contradiction)
  | Except.ok _, Except.error _ => isFalse (by intro hc; exact Except.noConfusion hc)
  | Except.error _, Except.ok _ => isFalse (by intro hc; exact Except.noConfusion hc)

/-- True on a successful service result. -/
def exceptOk {e a : Type} : Except e a → Bool
  | Except.ok _ => true
  | Except.error _ => false

/-
  Scoring Library: the model methods of StudySession, PageTime and
  PomodoroSession (models/consolidated.py).
-/

/-- StudySession._calculate_focus_score. -/
def StudySession.calculate_focus_score (s : StudySession) : Rat :=
  if s.total_minutes = 0 then 0
  else
    let score1 : Rat := 1
    let score2 : Rat :=
      if 0 < s.interruptions then score1 - min (1/2) ((s.interruptions : Rat) * (1/10))
      else score1
    let score3 : Rat :=
      if 0 < s.total_minutes then
        (if 1/5 < (s.idle_minutes : Rat) / (s.total_minutes : Rat) then
          score2 - min (3/10) (((s.idle_minutes : Rat) / (s.total_minutes : Rat) - 1/5) * (3/2))
        else score2)
      else score2
    max 0 (round2 score3)

/-- StudySession._calculate_productivity_score. -/
def StudySession.calculate_productivity_score (s : StudySession) : Rat :=
  if s.total_minutes = 0 then 0
  else
    let pages_score : Rat := min 1 ((s.pages_completed : Rat) / max 1 ((s.total_minutes : Rat) / 10))
    let activity_score : Rat :=
      min 1 (((s.clicks_count : Rat) + (s.scroll_events : Rat)) / max 1 ((s.total_minutes : Rat) * 5))
    round2 (pages_score * (7/10) + activity_score * (3/10))

/-- StudySession._calculate_xp_earned. -/
def StudySession.calculate_xp_earned (s : StudySession) : Int :=
  s.active_minutes * 2 + pyInt (s.focus_score * 50) + pyInt (s.productivity_score * 50)
    + s.pages_completed * 10 + s.pomodoro_cycles * 25

/-- StudySession.end_session: set the end timestamp, clear the activity
flags, finalize total_minutes from wall clock, then compute the scores,
each reading the fields as updated so far. -/
def StudySession.end_session_model (s : StudySession) (now : Rat) : StudySession :=
  let s1 := { s with end_time := some now, is_active := false, is_paused := false }
  let s2 := { s1 with total_minutes := pyInt ((now - s1.start_time) / 60) }
  let s3 := { s2 with focus_score := s2.calculate_focus_score }
  let s4 := { s3 with productivity_score := s3.calculate_productivity_score }
  { s4 with xp_earned := s4.calculate_xp_earned }

/-- PageTime.engagement_score (property). -/
def PageTime.engagement_score (p : PageTime) : Rat :=
  if p.duration_seconds = 0 then 0
  else
    let activity_rate : Rat := (p.activity_count : Rat) / ((p.duration_seconds : Rat) / 60)
    if activity_rate < 2 then activity_rate / 2
    else if activity_rate ≤ 5 then 1
    else max (1/2) (1 - (activity_rate - 5) * (1/10))

/-- PageTime._calculate_difficulty_rating. -/
def PageTime.calculate_difficulty_rating (p : PageTime) : Int :=
  if p.duration_seconds = 0 then 1
  else
    let minutes_spent : Rat := (p.duration_seconds : Rat) / 60
    if minutes_spent < 1 then 1
    else if minutes_spent < 2 then 2
    else if minutes_spent < 4 then 3
    else if minutes_spent < 8 then 4
    else 5

/-- PageTime._calculate_comprehension_estimate. -/
def PageTime.calculate_comprehension_estimate (p : PageTime) : Rat :=
  round2 (p.engagement_score * (7/10)
    + min 1 (((p.notes_created : Rat) + (p.highlights_made : Rat)) / 3) * (3/10))

/-- PageTime.end_page_timing: set end timestamp, finalize duration, compute
reading speed only when estimated_words and active_time_seconds are both
positive, then the auto difficulty rating and the comprehension estimate. -/
def PageTime.end_page_timing (p : PageTime) (now : Rat) : PageTime :=
  let p1 := { p with end_time := some now }
  let p2 := { p1 with duration_seconds := pyInt (now - p1.start_time) }
  let p3 :=
    if 0 < p2.estimated_words ∧ 0 < p2.active_time_seconds then
      { p2 with reading_speed_wpm := some (round2 ((p2.estimated_words : Rat) / ((p2.active_time_seconds : Rat) / 60))) }
    else p2
  let p4 := { p3 with difficulty_rating := p3.calculate_difficulty_rating }
  { p4 with comprehension_estimate := p4.calculate_comprehension_estimate }

/-- PomodoroSession._calculate_productivity_score. -/
def PomodoroSession.calculate_productivity_score (p : PomodoroSession) : Rat :=
  if p.planned_duration_minutes = 0 then 0
  else
    let completion_score : Rat :=
      min 1 ((p.actual_duration_minutes : Rat) / (p.planned_duration_minutes : Rat))
    let interruption_penalty : Rat := min (1/2) ((p.interruptions : Rat) * (1/10))
    max 0 (round2 (completion_score - interruption_penalty))

/-- PomodoroSession._calculate_focus_score. -/
def PomodoroSession.calculate_focus_score (p : PomodoroSession) : Rat :=
  if p.cycle_type ≠ "work" then 1
  else
    let score1 : Rat := 1
    let score2 : Rat :=
      if 0 < p.interruptions then score1 - min (8/10) ((p.interruptions : Rat) * (1/5))
      else score1
    let score3 : Rat :=
      if p.completed = true ∧ p.planned_duration_minutes ≤ p.actual_duration_minutes then
        score2 + 1/10
      else score2
    max 0 (min 1 (round2 score3))

/-- PomodoroSession._calculate_xp_earned. -/
def PomodoroSession.calculate_xp_earned (p : PomodoroSession) : Int :=
  if p.cycle_type = "work" then
    (if p.completed then 25 else 10) + pyInt (p.focus_score * 15) + pyInt (p.productivity_score * 10)
  else
    if p.completed then 5 else 2

/-- PomodoroSession.complete_cycle: stamp completion, set actual duration
from wall clock, optionally record the rating (Python truthiness: a rating
of 0 is not recorded), then compute the scores in order. -/
def PomodoroSession.complete_cycle (p : PomodoroSession) (now : Rat)
    (effectiveness_rating : Option Int) : PomodoroSession :=
  let p1 := { p with completed_at := some now, completed := true }
  let p2 := { p1 with actual_duration_minutes := pyInt ((now - p1.started_at) / 60) }
  let p3 :=
    match effectiveness_rating with
    | some r => if r ≠ 0 then { p2 with effectiveness_rating := some r } else p2
    | none => p2
  let p4 := { p3 with productivity_score := p3.calculate_productivity_score }
  let p5 := { p4 with focus_score := p4.calculate_focus_score }
  { p5 with xp_earned := p5.calculate_xp_earned }

/-
  Request schemas (backend/app/schemas/consolidated.py). Optional fields
  model pydantic exclude_unset semantics: a `none` field was not supplied.
-/

/-- StudySessionCreate payload. -/
structure StudySessionCreate where
  pdf_id : Nat
  topic_id : Nat
  session_type : String
  planned_cycles : Int
  notes : Option String
deriving DecidableEq

/-- SessionActivityUpdate payload. -/
structure SessionActivityUpdate where
  pages_visited : Option Int
  pages_completed : Option Int
  clicks_count : Option Int
  scroll_events : Option Int
  interruptions : Option Int
deriving DecidableEq

/-- PageTimeCreate payload. -/
structure PageTimeCreate where
  session_id : Nat
  pdf_id : Nat
  page_number : Int
  estimated_words : Int
deriving DecidableEq

/-- PageTimeUpdate payload. -/
structure PageTimeUpdate where
  activity_count : Option Int
  click_count : Option Int
  scroll_count : Option Int
  zoom_changes : Option Int
  notes_created : Option Int
  highlights_made : Option Int
  bookmarks_added : Option Int
deriving DecidableEq

/-- PomodoroSessionCreate payload. -/
structure PomodoroSessionCreate where
  study_session_id : Nat
  cycle_number : Int
  cycle_type : String
  planned_duration_minutes : Int
deriving DecidableEq

/-- setattr(obj, f, max(getattr(obj, f), value)) for an optionally supplied
counter: the monotonic maximum-wins merge. -/
def mergeMax (v : Int) : Option Int → Int
  | none => v
  | some x => max v x

/-- Result shape of TimerService.calculate_reading_completion_estimate. -/
structure CompletionEstimate where
  pdf_id : Nat
  remaining_pages : Int
  estimated_minutes : Int
  confidence_level : String
  avg_reading_speed : Rat
  based_on_sessions : Nat
  difficulty_adjustment : Rat
deriving DecidableEq

/-- Sum of a list of rationals. -/
def ratSum (l : List Rat) : Rat := l.foldr (fun a b => a + b) 0

/-- Hour-of-day of a UTC timestamp in seconds (datetime .hour). -/
def hourOf (t : Rat) : Int := ⌊t / 3600⌋ % 24

/-- Python weekday of a UTC timestamp in seconds (Monday = 0; the epoch day
1970-01-01 was a Thursday, weekday 3). -/
def weekdayOf (t : Rat) : Int := (⌊t / 86400⌋ + 3) % 7

/-- Calendar day of a UTC timestamp in seconds (func.date truncation). -/
def dayOf (t : Rat) : Int := ⌊t / 86400⌋

namespace TimerService

/-- TimerService._get_user_session: session by id, owned by the user and
not soft-deleted. -/
def get_user_session (db : DB) (session_id : Nat) (user_id : Nat) : Option StudySession :=
  db.sessions.find? (fun s => s.id == session_id && s.user_id == user_id && !s.is_deleted)

/-- The join filter used by the page-timer and pomodoro queries: the owning
study session belongs to the user. -/
def session_user_matches (db : DB) (sid : Nat) (uid : Nat) : Bool :=
  db.sessions.any (fun s => s.id == sid && s.user_id == uid)

/-- Write an updated session row back (ORM in-place mutation + commit). -/
def putSession (db : DB) (s : StudySession) : DB :=
  { db with sessions := db.sessions.map (fun t => if t.id = s.id then s else t) }

/-- Write an updated page-time row back. -/
def putPageTime (db : DB) (p : PageTime) : DB :=
  { db with pageTimes := db.pageTimes.map (fun t => if t.id = p.id then p else t) }

/-- Write an updated pomodoro row back. -/
def putPomodoro (db : DB) (p : PomodoroSession) : DB :=
  { db with pomodoros := db.pomodoros.map (fun t => if t.id = p.id then p else t) }

/-- Write an updated pdf row back. -/
def putPdf (db : DB) (p : PDF) : DB :=
  { db with pdfs := db.pdfs.map (fun t => if t.id = p.id then p else t) }

/-- Write an updated topic row back. -/
def putTopic (db : DB) (t0 : Topic) : DB :=
  { db with topics := db.topics.map (fun t => if t.id = t0.id then t0 else t) }

/-- TimerService._end_existing_sessions: call the model end_session on every
active, not-deleted session of the user. -/
def end_existing_sessions (db : DB) (now : Rat) (user_id : Nat) : DB :=
  { db with sessions := db.sessions.map (fun s => if s.user_id == user_id && s.is_active && !s.is_deleted then s.end_session_model now else s) }

/-- TimerService._update_session_timing. -/
def update_session_timing (s : StudySession) (now : Rat) : StudySession :=
  let total := pyInt ((now - s.start_time) / 60)
  let s1 := { s with total_minutes := total }
  if !s1.is_paused then { s1 with active_minutes := min total (s1.active_minutes + 1) }
  else { s1 with idle_minutes := total - s1.active_minutes }

/-- TimerService.start_session: verify PDF ownership (the topic is never
looked up), force-end the existing active sessions of the user, then create
the new active session. -/
def start_session (db : DB) (now : Rat) (session_data : StudySessionCreate) (user_id : Nat) : Except SError (StudySession × DB) :=
  match db.pdfs.find? (fun p => p.id == session_data.pdf_id && p.user_id == user_id && !p.is_deleted) with
  | none => Except.error (SError.notFound "PDF not found")
  | some _ =>
    let db1 := end_existing_sessions db now user_id
    let s : StudySession :=
      { id := db1.nextId, user_id := user_id, pdf_id := session_data.pdf_id,
        topic_id := session_data.topic_id, session_type := session_data.session_type,
        start_time := now, end_time := none,
        total_minutes := 0, active_minutes := 0, idle_minutes := 0,
        pages_visited := 0, pages_completed := 0, clicks_count := 0,
        scroll_events := 0, interruptions := 0,
        pomodoro_cycles := 0, planned_cycles := session_data.planned_cycles,
        focus_score := 0, productivity_score := 0, comprehension_score := 0,
        xp_earned := 0, is_active := true, is_paused := false, pause_count := 0,
        notes := session_data.notes, session_rating := none, is_deleted := false }
    Except.ok (s, { db1 with sessions := db1.sessions ++ [s], nextId := db1.nextId + 1 })

/-- TimerService.pause_session: the paused flag and the pause count are set
before the timing update runs. -/
def pause_session (db : DB) (now : Rat) (session_id : Nat) (user_id : Nat) (reason : Option String) : Except SError (StudySession × DB) :=
  match get_user_session db session_id user_id with
  | none => Except.error (SError.notFound "Study session not found")
  | some s =>
    if s.is_active = false then Except.error (SError.badRequest "Session is not active")
    else if s.is_paused = true then Except.error (SError.badRequest "Session is already paused")
    else
      let s1 := { s with is_paused := true, pause_count := s.pause_count + 1 }
      let s2 := update_session_timing s1 now
      let _ := reason
      Except.ok (s2, putSession db s2)

/-- TimerService.resume_session. -/
def resume_session (db : DB) (session_id : Nat) (user_id : Nat) : Except SError (StudySession × DB) :=
  match get_user_session db session_id user_id with
  | none => Except.error (SError.notFound "Study session not found")
  | some s =>
    if s.is_active = false then Except.error (SError.badRequest "Session is not active")
    else if s.is_paused = false then Except.error (SError.badRequest "Session is not paused")
    else
      let s1 := { s with is_paused := false }
      Except.ok (s1, putSession db s1)

/-- The maximum-wins merge of a SessionActivityUpdate into a session. -/
def apply_session_activity (s : StudySession) (a : SessionActivityUpdate) : StudySession :=
  { s with
    pages_visited := mergeMax s.pages_visited a.pages_visited,
    pages_completed := mergeMax s.pages_completed a.pages_completed,
    clicks_count := mergeMax s.clicks_count a.clicks_count,
    scroll_events := mergeMax s.scroll_events a.scroll_events,
    interruptions := mergeMax s.interruptions a.interruptions }

/-- TimerService.update_session_activity. -/
def update_session_activity (db : DB) (now : Rat) (session_id : Nat) (user_id : Nat) (activity : SessionActivityUpdate) : Except SError (StudySession × DB) :=
  match get_user_session db session_id user_id with
  | none => Except.error (SError.notFound "Study session not found")
  | some s =>
    if s.is_active = false then Except.error (SError.badRequest "Session is not active")
    else
      let s1 := update_session_timing (apply_session_activity s activity) now
      Except.ok (s1, putSession db s1)

/-- TimerService._create_reading_speed_entry: emit a ReadingSpeed sample,
unless the session visited no pages or has no active minutes. -/
def create_reading_speed_entry (db : DB) (s : StudySession) : DB :=
  if s.pages_visited = 0 ∨ s.active_minutes = 0 then db
  else
    let pages_per_minute : Rat := (s.pages_visited : Rat) / (s.active_minutes : Rat)
    let words_per_minute : Rat := pages_per_minute * 250
    let rs : ReadingSpeed :=
      { user_id := s.user_id, pdf_id := some s.pdf_id, topic_id := some s.topic_id,
        session_id := some s.id,
        pages_per_minute := pages_per_minute, words_per_minute := words_per_minute,
        characters_per_minute := words_per_minute * 5,
        content_type := "mixed", difficulty_level := 3,
        estimated_words := s.pages_visited * 250,
        time_of_day := hourOf s.start_time, day_of_week := weekdayOf s.start_time,
        session_duration := s.active_minutes }
    { db with readingSpeeds := db.readingSpeeds ++ [rs] }

/-- Fold one finished session into a daily UserStatistic row
(the body of TimerService._update_user_statistics). -/
def fold_statistics (st : UserStatistic) (s : StudySession) : UserStatistic :=
  let st1 := { st with
    total_study_minutes := st.total_study_minutes + s.active_minutes,
    total_active_minutes := st.total_active_minutes + s.active_minutes,
    total_sessions := st.total_sessions + 1,
    pages_read := st.pages_read + s.pages_visited,
    pomodoro_cycles_completed := st.pomodoro_cycles_completed + s.pomodoro_cycles,
    xp_earned := st.xp_earned + s.xp_earned }
  if 0 < st1.total_sessions then
    { st1 with
      average_focus_score := (st1.average_focus_score * ((st1.total_sessions : Rat) - 1) + s.focus_score) / (st1.total_sessions : Rat),
      average_productivity_score := (st1.average_productivity_score * ((st1.total_sessions : Rat) - 1) + s.productivity_score) / (st1.total_sessions : Rat) }
  else st1

/-- Replace the first occurrence of an element in a list. -/
def replaceFirst {a : Type} [DecidableEq a] (l : List a) (old new : a) : List a :=
  match l with
  | [] => []
  | x :: xs => if x = old then new :: xs else x :: replaceFirst xs old new

/-- TimerService._update_user_statistics: find or create the daily row for
today, then fold the session into it. -/
def update_user_statistics (db : DB) (now : Rat) (user_id : Nat) (s : StudySession) : DB :=
  match db.userStats.find? (fun u => u.user_id == user_id && u.stat_type == "daily" && dayOf u.stat_date == dayOf now) with
  | some st => { db with userStats := replaceFirst db.userStats st (fold_statistics st s) }
  | none =>
    let st0 : UserStatistic :=
      { user_id := user_id, stat_type := "daily", stat_date := now,
        total_study_minutes := 0, total_active_minutes := 0, total_sessions := 0,
        pages_read := 0, pomodoro_cycles_completed := 0, xp_earned := 0,
        average_focus_score := 0, average_productivity_score := 0 }
    { db with userStats := db.userStats ++ [fold_statistics st0 s] }

/-- The PDF statistics update block of TimerService.end_session: add the
active minutes to the cumulative read time, bump the view count and the
last-viewed timestamp. -/
def update_pdf_statistics (db : DB) (now : Rat) (s : StudySession) : DB :=
  match db.pdfs.find? (fun p => p.id == s.pdf_id) with
  | some pdf => putPdf db { pdf with actual_read_time := pdf.actual_read_time + s.active_minutes, view_count := pdf.view_count + 1, last_viewed_at := some now }
  | none => db

/-- The topic statistics update block of TimerService.end_session. -/
def update_topic_statistics (db : DB) (now : Rat) (s : StudySession) : DB :=
  match db.topics.find? (fun t => t.id == s.topic_id) with
  | some topic => putTopic db { topic with total_study_time := topic.total_study_time + s.active_minutes, last_studied_at := some now }
  | none => db

/-- The Python truthiness update of rating and notes at the top of
TimerService.end_session (a zero rating or an empty string is not set). -/
def apply_rating_notes (s : StudySession) (session_rating : Option Int) (notes : Option String) : StudySession :=
  let s1 :=
    match session_rating with
    | some r => if r ≠ 0 then { s with session_rating := some r } else s
    | none => s
  match notes with
  | some n => if n ≠ "" then { s1 with notes := some n } else s1
  | none => s1

/-- TimerService.end_session: end the session via the model method, update
the PDF and topic statistics, emit the reading-speed sample, fold the user
statistics.  Open page timers of the session are not touched. -/
def end_session (db : DB) (now : Rat) (session_id : Nat) (user_id : Nat) (session_rating : Option Int) (notes : Option String) : Except SError (StudySession × DB) :=
  match get_user_session db session_id user_id with
  | none => Except.error (SError.notFound "Study session not found")
  | some s =>
    if s.is_active = false then Except.error (SError.badRequest "Session is not active")
    else
      let s3 := (apply_rating_notes s session_rating notes).end_session_model now
      let db1 := putSession db s3
      let db2 := update_pdf_statistics db1 now s3
      let db3 := update_topic_statistics db2 now s3
      let db4 := create_reading_speed_entry db3 s3
      let db5 := update_user_statistics db4 now user_id s3
      Except.ok (s3, db5)

/-- TimerService.start_page_timer: verify session ownership, auto-close the
currently open page timer of the session (if any), create the new one. -/
def start_page_timer (db : DB) (now : Rat) (page_data : PageTimeCreate) (user_id : Nat) : Except SError (PageTime × DB) :=
  match get_user_session db page_data.session_id user_id with
  | none => Except.error (SError.notFound "Study session not found")
  | some _ =>
    let db1 :=
      match db.pageTimes.find? (fun p => p.session_id == page_data.session_id && p.end_time.isNone) with
      | some existing => putPageTime db (existing.end_page_timing now)
      | none => db
    let pt : PageTime :=
      { id := db1.nextId, session_id := page_data.session_id, pdf_id := page_data.pdf_id,
        page_number := page_data.page_number, estimated_words := page_data.estimated_words,
        start_time := now, end_time := none, duration_seconds := 0,
        active_time_seconds := 0, idle_time_seconds := 0,
        activity_count := 0, click_count := 0, scroll_count := 0, zoom_changes := 0,
        reading_speed_wpm := none, difficulty_rating := 1, comprehension_estimate := 0,
        notes_created := 0, highlights_made := 0, bookmarks_added := 0 }
    Except.ok (pt, { db1 with pageTimes := db1.pageTimes ++ [pt], nextId := db1.nextId + 1 })

/-- TimerService.end_page_timer: close an open page timer owned (through
its session) by the user. -/
def end_page_timer (db : DB) (now : Rat) (page_time_id : Nat) (user_id : Nat) : Except SError (PageTime × DB) :=
  match db.pageTimes.find? (fun p => p.id == page_time_id && p.end_time.isNone && session_user_matches db p.session_id user_id) with
  | none => Except.error (SError.notFound "Active page timer not found")
  | some p =>
    let p1 := p.end_page_timing now
    Except.ok (p1, putPageTime db p1)

/-- The maximum-wins merge of a PageTimeUpdate, followed by the recomputation
of activity_count as clicks + scrolls + zoom changes (which discards any
supplied activity_count value). -/
def apply_page_activity (p : PageTime) (a : PageTimeUpdate) : PageTime :=
  let p1 := { p with
    activity_count := mergeMax p.activity_count a.activity_count,
    click_count := mergeMax p.click_count a.click_count,
    scroll_count := mergeMax p.scroll_count a.scroll_count,
    zoom_changes := mergeMax p.zoom_changes a.zoom_changes,
    notes_created := mergeMax p.notes_created a.notes_created,
    highlights_made := mergeMax p.highlights_made a.highlights_made,
    bookmarks_added := mergeMax p.bookmarks_added a.bookmarks_added }
  { p1 with activity_count := p1.click_count + p1.scroll_count + p1.zoom_changes }

/-- TimerService.update_page_activity. -/
def update_page_activity (db : DB) (page_time_id : Nat) (user_id : Nat) (activity : PageTimeUpdate) : Except SError (PageTime × DB) :=
  match db.pageTimes.find? (fun p => p.id == page_time_id && session_user_matches db p.session_id user_id) with
  | none => Except.error (SError.notFound "Page timer not found")
  | some p =>
    let p1 := apply_page_activity p activity
    Except.ok (p1, putPageTime db p1)

/-- TimerService.start_pomodoro_cycle. -/
def start_pomodoro_cycle (db : DB) (now : Rat) (pomodoro_data : PomodoroSessionCreate) (user_id : Nat) : Except SError (PomodoroSession × DB) :=
  match get_user_session db pomodoro_data.study_session_id user_id with
  | none => Except.error (SError.notFound "Study session not found")
  | some _ =>
    let p : PomodoroSession :=
      { id := db.nextId, study_session_id := pomodoro_data.study_session_id,
        cycle_number := pomodoro_data.cycle_number, cycle_type := pomodoro_data.cycle_type,
        planned_duration_minutes := pomodoro_data.planned_duration_minutes,
        actual_duration_minutes := 0, started_at := now, completed_at := none,
        completed := false, interrupted := false, interruptions := 0,
        effectiveness_rating := none, productivity_score := 0, focus_score := 0,
        xp_earned := 0 }
    Except.ok (p, { db with pomodoros := db.pomodoros ++ [p], nextId := db.nextId + 1 })

/-- TimerService.complete_pomodoro_cycle: only a not-yet-completed cycle
owned by the user is found; completing it also increments the owning
session pomodoro counter and adds the cycle XP. -/
def complete_pomodoro_cycle (db : DB) (now : Rat) (pomodoro_id : Nat) (user_id : Nat) (effectiveness_rating : Option Int) (interruptions : Int) : Except SError (PomodoroSession × DB) :=
  match db.pomodoros.find? (fun p => p.id == pomodoro_id && !p.completed && session_user_matches db p.study_session_id user_id) with
  | none => Except.error (SError.notFound "Active Pomodoro cycle not found")
  | some p =>
    let p1 := { p with interruptions := interruptions }
    let p2 := p1.complete_cycle now effectiveness_rating
    let db1 := putPomodoro db p2
    let db2 :=
      match db1.sessions.find? (fun s => s.id == p2.study_session_id) with
      | some ss => putSession db1 { ss with pomodoro_cycles := ss.pomodoro_cycles + 1, xp_earned := ss.xp_earned + p2.xp_earned }
      | none => db1
    Except.ok (p2, db2)

/-- The difficulty multiplier table of
TimerService.calculate_reading_completion_estimate (default 1). -/
def difficulty_multiplier (d : Int) : Rat :=
  if d = 1 then 8/10
  else if d = 2 then 9/10
  else if d = 3 then 1
  else if d = 4 then 6/5
  else if d = 5 then 3/2
  else 1

/-- TimerService.calculate_reading_completion_estimate.  The average reading
speed is taken over the user samples with content type text and the same
difficulty as the PDF; the Python `scalar() or 0.5` fallback replaces both a
missing average (no samples) and an average equal to 0. -/
def calculate_reading_completion_estimate (db : DB) (pdf_id : Nat) (user_id : Nat) : Except SError CompletionEstimate :=
  match db.pdfs.find? (fun p => p.id == pdf_id && p.user_id == user_id && !p.is_deleted) with
  | none => Except.error (SError.notFound "PDF not found")
  | some pdf =>
    let samples := db.readingSpeeds.filter (fun r => r.user_id == user_id && r.content_type == "text" && r.difficulty_level == pdf.difficulty_rating)
    let avg : Rat :=
      if samples.isEmpty then 1/2
      else
        let v := ratSum (samples.map (fun r => r.pages_per_minute)) / (samples.length : Rat)
        if v = 0 then 1/2 else v
    let remaining_pages : Int := max 0 (pdf.total_pages - pdf.current_page + 1)
    let est1 : Int := pyInt ((remaining_pages : Rat) / avg)
    let mult : Rat := difficulty_multiplier pdf.difficulty_rating
    let est2 : Int := pyInt ((est1 : Rat) * mult)
    let session_count : Nat := (db.sessions.filter (fun s => s.user_id == user_id && s.pdf_id == pdf_id)).length
    let confidence : String := if 3 ≤ session_count then "high" else if 1 ≤ session_count then "medium" else "low"
    Except.ok
      { pdf_id := pdf_id, remaining_pages := remaining_pages, estimated_minutes := est2,
        confidence_level := confidence, avg_reading_speed := avg,
        based_on_sessions := session_count, difficulty_adjustment := mult }

end TimerService

/-
  The session-state invariant of the spec (section 3 and section 8),
  together with the well-formedness the persistent store guarantees
  (primary keys are unique and below the fresh-id counter).
-/

/-- Per-row session invariant: is_paused implies is_active, and the end
timestamp is set exactly when the session is no longer active. -/
def SessionOK (s : StudySession) : Prop :=
  (s.is_paused = true → s.is_active = true) ∧ (s.end_time.isSome = true ↔ s.is_active = false)

instance : DecidablePred SessionOK := fun s =>
  inferInstanceAs (Decidable ((s.is_paused = true → s.is_active = true) ∧ (s.end_time.isSome = true ↔ s.is_active = false)))

/-- A session counting toward the one-active-session-per-user rule:
active and visible to the registry (not soft-deleted). -/
def liveActive (s : StudySession) : Prop := s.is_active = true ∧ s.is_deleted = false

instance : DecidablePred liveActive := fun s =>
  inferInstanceAs (Decidable (s.is_active = true ∧ s.is_deleted = false))

/-- The session-state invariant over the store: fresh ids, unique primary
keys, every row satisfies SessionOK, and no user has two live active
sessions. -/
def DBInv (db : DB) : Prop :=
  (∀ s ∈ db.sessions, s.id < db.nextId) ∧
  db.sessions.Pairwise (fun a b => a.id ≠ b.id) ∧
  (∀ s ∈ db.sessions, SessionOK s) ∧
  db.sessions.Pairwise (fun a b => a.user_id = b.user_id → liveActive a → liveActive b → False)

instance (db : DB) : Decidable (DBInv db) := by
  unfold DBInv
  infer_instance

/-
  Concrete fixture rows, used by the counterexamples and witnesses.
-/

/-- A PDF owned by user 7: 3 pages, currently on page 2, difficulty 4. -/
def fixPdf : PDF :=
  { id := 1, user_id := 7, total_pages := 3, current_page := 2, difficulty_rating := 4,
    actual_read_time := 0, view_count := 0, last_viewed_at := none, is_deleted := false }

/-- A topic owned by user 7. -/
def fixTopic : Topic :=
  { id := 5, user_id := 7, total_study_time := 0, last_studied_at := none }

/-- An active, unpaused study session of user 7 on fixPdf, started at 0. -/
def fixSession : StudySession :=
  { id := 2, user_id := 7, pdf_id := 1, topic_id := 5, session_type := "study",
    start_time := 0, end_time := none,
    total_minutes := 0, active_minutes := 0, idle_minutes := 0,
    pages_visited := 0, pages_completed := 0, clicks_count := 0,
    scroll_events := 0, interruptions := 0,
    pomodoro_cycles := 0, planned_cycles := 0,
    focus_score := 0, productivity_score := 0, comprehension_score := 0,
    xp_earned := 0, is_active := true, is_paused := false, pause_count := 0,
    notes := none, session_rating := none, is_deleted := false }

/-- An open page timer of fixSession, started at 0, word estimate 500. -/
def fixPageTime : PageTime :=
  { id := 3, session_id := 2, pdf_id := 1, page_number := 1,
    start_time := 0, end_time := none, duration_seconds := 0,
    active_time_seconds := 0, idle_time_seconds := 0,
    activity_count := 0, click_count := 0, scroll_count := 0, zoom_changes := 0,
    reading_speed_wpm := none, estimated_words := 500, difficulty_rating := 1,
    comprehension_estimate := 0, notes_created := 0, highlights_made := 0,
    bookmarks_added := 0 }

/-- An uncompleted work pomodoro cycle of fixSession, started at 0. -/
def fixPomodoro : PomodoroSession :=
  { id := 4, study_session_id := 2, cycle_number := 1, cycle_type := "work",
    planned_duration_minutes := 25, actual_duration_minutes := 0,
    started_at := 0, completed_at := none, completed := false, interrupted := false,
    interruptions := 0, effectiveness_rating := none,
    productivity_score := 0, focus_score := 0, xp_earned := 0 }

/-- The fixture store: one pdf, one topic, one active session with an open
page timer and an uncompleted pomodoro cycle. -/
def fixDB : DB :=
  { sessions := [fixSession], pageTimes := [fixPageTime], pomodoros := [fixPomodoro],
    pdfs := [fixPdf], topics := [fixTopic], readingSpeeds := [], userStats := [],
    nextId := 6 }

/-- A user-7 reading-speed sample with content type text and difficulty 4,
reading 2 pages per minute. -/
def fixTextSample : ReadingSpeed :=
  { user_id := 7, pdf_id := none, topic_id := none, session_id := none,
    pages_per_minute := 2, words_per_minute := 500, characters_per_minute := 2500,
    content_type := "text", difficulty_level := 4, estimated_words := 0,
    time_of_day := 0, day_of_week := 3, session_duration := 10 }

/-- The supplied optional counter value is at most the stored one. -/
def suppliedLE (o : Option Int) (v : Int) : Prop :=
  match o with
  | none => True
  | some x => x ≤ v

instance (o : Option Int) (v : Int) : Decidable (suppliedLE o v) :=
  match o with
  | none => isTrue trivial
  | some x => inferInstanceAs (Decidable (x ≤ v))

/-- An update supplying only activity_count = 5 to the all-zero fixture
page timer stores 0 (clicks + scrolls + zoom recomputation), not
max(0, 5) = 5 as the claim requires for every counter. -/
def fixActivityCountOnly : PageTimeUpdate :=
  { activity_count := some 5, click_count := none, scroll_count := none, zoom_changes := none,
    notes_created := none, highlights_made := none, bookmarks_added := none }

/-- A session update raising pages_visited to 3 and clicks to 10. -/
def fixSessionActivity : SessionActivityUpdate :=
  { pages_visited := some 3, pages_completed := some 1, clicks_count := some 10,
    scroll_events := none, interruptions := none }

/-- A creation payload naming topic 99, which does not exist in fixDB. -/
def fixCreate99 : StudySessionCreate :=
  { pdf_id := 1, topic_id := 99, session_type := "study", planned_cycles := 0, notes := none }

/-- A creation payload naming pdf 42, which does not exist in fixDB. -/
def fixCreate42 : StudySessionCreate :=
  { pdf_id := 42, topic_id := 5, session_type := "study", planned_cycles := 0, notes := none }

/-- A store for the completion estimate: fixPdf, no study sessions at all,
and one text reading-speed sample at 2 pages per minute of the same
difficulty as the PDF. -/
def fixDBestimate : DB :=
  { sessions := [], pageTimes := [], pomodoros := [], pdfs := [fixPdf], topics := [],
    readingSpeeds := [fixTextSample], userStats := [], nextId := 10 }

theorem pyInt_nonneg (x : Rat) (h : 0 ≤ x) : 0 ≤ pyInt x := by
  unfold pyInt
  rw [if_pos h]
  exact Int.floor_nonneg.mpr h

theorem floor_le_roundHalfEven (x : Rat) : ⌊x⌋ ≤ roundHalfEven x := by
  unfold roundHalfEven
  split
  · exact le_refl _
  · split
    · omega
    · split
      · exact le_refl _
      · omega

theorem roundHalfEven_le_ceil (x : Rat) : roundHalfEven x ≤ ⌈x⌉ := by
  unfold roundHalfEven
  have hfc : ⌊x⌋ ≤ ⌈x⌉ := Int.floor_le_ceil x
  have hstep : (1:Rat)/2 ≤ x - (⌊x⌋ : Rat) → ⌊x⌋ + 1 ≤ ⌈x⌉ := by
    intro h
    have hlt : (⌊x⌋ : Rat) < x := by linarith
    have := Int.lt_ceil.mpr hlt
    omega
  split
  · exact hfc
  · split
    · refine hstep ?_
      linarith
    · split
      · exact hfc
      · refine hstep ?_
        linarith

theorem roundHalfEven_nonneg (x : Rat) (h : 0 ≤ x) : 0 ≤ roundHalfEven x :=
  le_trans (Int.floor_nonneg.mpr h) (floor_le_roundHalfEven x)

theorem round2_nonneg (x : Rat) (h : 0 ≤ x) : 0 ≤ round2 x := by
  unfold round2
  have h100 : (0:Rat) ≤ 100 * x := by linarith
  have := roundHalfEven_nonneg (100 * x) h100
  have hcast : (0:Rat) ≤ (roundHalfEven (100 * x) : Rat) := by exact_mod_cast this
  positivity

theorem round2_le_one (x : Rat) (h : x ≤ 1) : round2 x ≤ 1 := by
  unfold round2
  have h1 : roundHalfEven (100 * x) ≤ ⌈(100 : Rat) * x⌉ := roundHalfEven_le_ceil _
  have h2 : ⌈(100 : Rat) * x⌉ ≤ ⌈(100 : Rat)⌉ := by
    apply Int.ceil_le_ceil
    linarith
  have h3 : ⌈(100 : Rat)⌉ = 100 := by norm_num
  have h4 : roundHalfEven (100 * x) ≤ 100 := by omega
  have h5 : (roundHalfEven (100 * x) : Rat) ≤ 100 := by exact_mod_cast h4
  linarith

/-
  Helper lemmas about the Scoring Library bounds.
-/

theorem focus_score_le_one (s : StudySession) : s.calculate_focus_score ≤ 1 := by
  unfold StudySession.calculate_focus_score
  split
  · norm_num
  · refine max_le (by norm_num) (round2_le_one _ ?_)
    split_ifs
    all_goals try (have hi : (0:Rat) < (s.interruptions : Rat) := by exact_mod_cast (show 0 < s.interruptions by assumption))
    all_goals try (have hr : (1:Rat)/5 < (s.idle_minutes : Rat) / (s.total_minutes : Rat) := by assumption)
    all_goals try (have hm1 : (0:Rat) ≤ min (1/2) ((s.interruptions : Rat) * (1/10)) := le_min (by norm_num) (by nlinarith))
    all_goals try (have hm2 : (0:Rat) ≤ min (3/10) (((s.idle_minutes : Rat) / (s.total_minutes : Rat) - 1/5) * (3/2)) := le_min (by norm_num) (by nlinarith))
    all_goals linarith

theorem focus_score_nonneg (s : StudySession) : 0 ≤ s.calculate_focus_score := by
  unfold StudySession.calculate_focus_score
  split
  · norm_num
  · exact le_max_left _ _

theorem productivity_score_le_one (s : StudySession) : s.calculate_productivity_score ≤ 1 := by
  unfold StudySession.calculate_productivity_score
  split
  · norm_num
  · refine round2_le_one _ ?_
    have h1 : min 1 ((s.pages_completed : Rat) / max 1 ((s.total_minutes : Rat) / 10)) ≤ 1 := min_le_left _ _
    have h2 : min 1 (((s.clicks_count : Rat) + (s.scroll_events : Rat)) / max 1 ((s.total_minutes : Rat) * 5)) ≤ 1 := min_le_left _ _
    linarith

theorem productivity_score_nonneg (s : StudySession)
    (hpc : 0 ≤ s.pages_completed) (hck : 0 ≤ s.clicks_count) (hse : 0 ≤ s.scroll_events) :
    0 ≤ s.calculate_productivity_score := by
  unfold StudySession.calculate_productivity_score
  split
  · norm_num
  · refine round2_nonneg _ ?_
    have hpc2 : (0:Rat) ≤ (s.pages_completed : Rat) := by exact_mod_cast hpc
    have hck2 : (0:Rat) ≤ (s.clicks_count : Rat) := by exact_mod_cast hck
    have hse2 : (0:Rat) ≤ (s.scroll_events : Rat) := by exact_mod_cast hse
    have hd1 : (0:Rat) < max 1 ((s.total_minutes : Rat) / 10) := lt_of_lt_of_le one_pos (le_max_left _ _)
    have hd2 : (0:Rat) < max 1 ((s.total_minutes : Rat) * 5) := lt_of_lt_of_le one_pos (le_max_left _ _)
    have h1 : (0:Rat) ≤ min 1 ((s.pages_completed : Rat) / max 1 ((s.total_minutes : Rat) / 10)) := by
      refine le_min (by norm_num) (div_nonneg hpc2 (le_of_lt hd1))
    have h2 : (0:Rat) ≤ min 1 (((s.clicks_count : Rat) + (s.scroll_events : Rat)) / max 1 ((s.total_minutes : Rat) * 5)) := by
      refine le_min (by norm_num) (div_nonneg (by linarith) (le_of_lt hd2))
    linarith

theorem xp_earned_nonneg (s : StudySession)
    (ham : 0 ≤ s.active_minutes) (hpc : 0 ≤ s.pages_completed) (hpo : 0 ≤ s.pomodoro_cycles)
    (hfs : 0 ≤ s.focus_score) (hps : 0 ≤ s.productivity_score) :
    0 ≤ s.calculate_xp_earned := by
  unfold StudySession.calculate_xp_earned
  have h1 : 0 ≤ pyInt (s.focus_score * 50) := pyInt_nonneg _ (by nlinarith)
  have h2 : 0 ≤ pyInt (s.productivity_score * 50) := pyInt_nonneg _ (by nlinarith)
  nlinarith

/-- C6: after ending a session with non-negative counters, the focus score
and the productivity score are in the unit interval and the earned XP is a
non-negative integer. -/
theorem timer_c6 (s : StudySession) (now : Rat)
    (hpc : 0 ≤ s.pages_completed) (hck : 0 ≤ s.clicks_count) (hse : 0 ≤ s.scroll_events)
    (ham : 0 ≤ s.active_minutes) (hpo : 0 ≤ s.pomodoro_cycles) :
    0 ≤ (s.end_session_model now).focus_score ∧ (s.end_session_model now).focus_score ≤ 1 ∧
    0 ≤ (s.end_session_model now).productivity_score ∧ (s.end_session_model now).productivity_score ≤ 1 ∧
    0 ≤ (s.end_session_model now).xp_earned := by
  simp only [StudySession.end_session_model]
  refine ⟨focus_score_nonneg _, focus_score_le_one _, productivity_score_nonneg _ hpc hck hse, productivity_score_le_one _, ?_⟩
  exact xp_earned_nonneg _ ham hpc hpo (focus_score_nonneg _) (productivity_score_nonneg _ hpc hck hse)

/-- C6 witness: the bounds at the fixture session ended ten minutes in. -/
theorem timer_c6_witness :
    0 ≤ (fixSession.end_session_model 600).focus_score ∧ (fixSession.end_session_model 600).focus_score ≤ 1 ∧
    0 ≤ (fixSession.end_session_model 600).productivity_score ∧ (fixSession.end_session_model 600).productivity_score ≤ 1 ∧
    0 ≤ (fixSession.end_session_model 600).xp_earned :=
  timer_c6 fixSession 600 (by decide) (by decide) (by decide) (by decide) (by decide)

/-- C7: closing a page timer computes reading_speed_wpm only when both the
word estimate and the active seconds are positive; otherwise the field is
left as it was (unset for a timer opened by start_page_timer), so the
division by active minutes is never performed with a zero divisor. -/
theorem timer_c7 (p : PageTime) (now : Rat) :
    (¬(0 < p.estimated_words ∧ 0 < p.active_time_seconds) →
      (p.end_page_timing now).reading_speed_wpm = p.reading_speed_wpm) ∧
    (0 < p.estimated_words → 0 < p.active_time_seconds →
      (p.end_page_timing now).reading_speed_wpm =
        some (round2 ((p.estimated_words : Rat) / ((p.active_time_seconds : Rat) / 60)))) ∧
    (p.reading_speed_wpm = none → p.active_time_seconds = 0 →
      (p.end_page_timing now).reading_speed_wpm = none) := by
  refine ⟨?_, ?_, ?_⟩
  · intro h
    simp only [PageTime.end_page_timing]
    rw [if_neg h]
  · intro h1 h2
    simp only [PageTime.end_page_timing]
    rw [if_pos ⟨h1, h2⟩]
  · intro h1 h2
    simp only [PageTime.end_page_timing]
    rw [if_neg (by simp [h2])]
    exact h1

/-- C7 witness: the round trip at the fixture page timer, which has a word
estimate of 500 but zero active seconds, leaves reading_speed_wpm unset. -/
theorem timer_c7_witness : (fixPageTime.end_page_timing 60).reading_speed_wpm = none := by
  have h := (timer_c7 fixPageTime 60).2.2 (by decide) (by decide)
  exact h

unseal Rat.add Rat.sub Rat.mul Rat.inv in
/-- C3 counterexample: pausing the fixture session ten minutes in leaves
active_minutes at 0 and sets idle_minutes to 10, not active_minutes =
min(elapsed, active+1) = 1 with idle_minutes unchanged at 0 as the claim
requires: the transition to paused happens before the timing update. -/
theorem timer_c3_counterexample :
    ((TimerService.pause_session fixDB 600 2 7 none).map (fun r => (r.1.active_minutes, r.1.idle_minutes)) = Except.ok (0, 10)) ∧
    ¬((TimerService.pause_session fixDB 600 2 7 none).map (fun r => (r.1.active_minutes, r.1.idle_minutes)) = Except.ok (min (pyInt ((600 - fixSession.start_time) / 60)) (fixSession.active_minutes + 1), fixSession.idle_minutes)) :=
  ⟨by decide, by decide⟩

/-- C3 (amended): a successful Pause first transitions the session to
paused (setting is_paused and incrementing the pause count) and only then
recomputes timing, so the paused branch of the timing update runs:
total_minutes is set to the elapsed minutes, idle_minutes becomes
total_minutes minus active_minutes, and active_minutes is unchanged. -/
theorem timer_c3 (db : DB) (now : Rat) (session_id user_id : Nat) (reason : Option String)
    (s s1 : StudySession) (db1 : DB)
    (hfind : TimerService.get_user_session db session_id user_id = some s)
    (hok : TimerService.pause_session db now session_id user_id reason = Except.ok (s1, db1)) :
    s1.is_paused = true ∧
    s1.pause_count = s.pause_count + 1 ∧
    s1.total_minutes = pyInt ((now - s.start_time) / 60) ∧
    s1.active_minutes = s.active_minutes ∧
    s1.idle_minutes = s1.total_minutes - s.active_minutes := by
  unfold TimerService.pause_session at hok
  rw [hfind] at hok
  dsimp only at hok
  by_cases h1 : s.is_active = false
  · rw [if_pos h1] at hok
    exact absurd hok (by simp)
  · rw [if_neg h1] at hok
    by_cases h2 : s.is_paused = true
    · rw [if_pos h2] at hok
      exact absurd hok (by simp)
    · rw [if_neg h2] at hok
      simp only [Except.ok.injEq, Prod.mk.injEq] at hok
      obtain ⟨hA, _⟩ := hok
      rw [← hA]
      unfold TimerService.update_session_timing
      simp

unseal Rat.add Rat.sub Rat.mul Rat.inv in
/-- C3 witness: the amended description evaluated on the fixture store,
paused ten minutes after the session start. -/
theorem timer_c3_witness :
    (match TimerService.pause_session fixDB 600 2 7 none with
     | Except.ok r => r.1.is_paused = true ∧ r.1.pause_count = fixSession.pause_count + 1 ∧ r.1.total_minutes = pyInt ((600 - fixSession.start_time) / 60) ∧ r.1.active_minutes = fixSession.active_minutes ∧ r.1.idle_minutes = r.1.total_minutes - fixSession.active_minutes
     | Except.error _ => False) := by
  cases h : TimerService.pause_session fixDB 600 2 7 none with
  | ok r => exact timer_c3 fixDB 600 2 7 none fixSession r.1 r.2 (by decide) (by rw [h])
  | error e =>
    have hx : exceptOk (TimerService.pause_session fixDB 600 2 7 none) = true := by decide
    rw [h] at hx
    simp [exceptOk] at hx

/-- A completed cycle stays completed through complete_cycle, and the cycle
id is never changed by it. -/
theorem complete_cycle_completed_id (q : PomodoroSession) (t : Rat) (e : Option Int) :
    (q.complete_cycle t e).completed = true ∧ (q.complete_cycle t e).id = q.id := by
  unfold PomodoroSession.complete_cycle
  cases e with
  | none => simp
  | some r => by_cases hr : r = 0 <;> simp [hr]

/-- Completing a cycle whose id only matches completed rows fails with the
not-found error (the query filters on completed == False). -/
theorem complete_on_all_completed (db : DB) (now : Rat) (pomodoro_id user_id : Nat)
    (er : Option Int) (intr : Int)
    (hall : ∀ p ∈ db.pomodoros, p.id = pomodoro_id → p.completed = true) :
    TimerService.complete_pomodoro_cycle db now pomodoro_id user_id er intr = Except.error (SError.notFound "Active Pomodoro cycle not found") := by
  unfold TimerService.complete_pomodoro_cycle
  have hnone : db.pomodoros.find? (fun p => p.id == pomodoro_id && !p.completed && TimerService.session_user_matches db p.study_session_id user_id) = none := by
    rw [List.find?_eq_none]
    intro p hp
    simp only [Bool.and_eq_true, beq_iff_eq, Bool.not_eq_true', not_and]
    intro hcon
    obtain ⟨h1, h2⟩ := hcon
    rw [hall p hp h1] at h2
    simp at h2
  rw [hnone]

/-- C10: when every cycle under the requested id is already completed, the
completion call fails with NotFoundError (so the error leaves the store
unchanged); and after a successful completion every cycle under that id is
completed, so a second completion call on the same id fails with
NotFoundError: the owning session counter and XP are incremented at most
once however many completion calls are made. -/
theorem timer_c10 (db : DB) (now now2 : Rat) (pomodoro_id user_id : Nat)
    (er er2 : Option Int) (intr intr2 : Int) :
    ((∀ p ∈ db.pomodoros, p.id = pomodoro_id → p.completed = true) →
      TimerService.complete_pomodoro_cycle db now pomodoro_id user_id er intr = Except.error (SError.notFound "Active Pomodoro cycle not found")) ∧
    (∀ p1 db1, TimerService.complete_pomodoro_cycle db now pomodoro_id user_id er intr = Except.ok (p1, db1) →
      p1.completed = true ∧
      (∀ q ∈ db1.pomodoros, q.id = pomodoro_id → q.completed = true) ∧
      TimerService.complete_pomodoro_cycle db1 now2 pomodoro_id user_id er2 intr2 = Except.error (SError.notFound "Active Pomodoro cycle not found")) := by
  constructor
  · exact complete_on_all_completed db now pomodoro_id user_id er intr
  · intro p1 db1 hok
    unfold TimerService.complete_pomodoro_cycle at hok
    cases hfind : db.pomodoros.find? (fun p => p.id == pomodoro_id && !p.completed && TimerService.session_user_matches db p.study_session_id user_id) with
    | none =>
      rw [hfind] at hok
      exact absurd hok (by simp)
    | some p =>
      rw [hfind] at hok
      dsimp only at hok
      have hpid : p.id = pomodoro_id := by
        have := List.find?_some hfind
        simp only [Bool.and_eq_true, beq_iff_eq] at this
        exact this.1.1
      simp only [Except.ok.injEq, Prod.mk.injEq] at hok
      obtain ⟨hp1, hdb1⟩ := hok
      rw [hp1] at hdb1
      have hcc := complete_cycle_completed_id { p with interruptions := intr } now er
      have hp1completed : p1.completed = true := by rw [← hp1]; exact hcc.1
      have hp1id : p1.id = pomodoro_id := by rw [← hp1, hcc.2]; exact hpid
      have hall : ∀ q ∈ db1.pomodoros, q.id = pomodoro_id → q.completed = true := by
        have hpoms : db1.pomodoros = db.pomodoros.map (fun t => if t.id = p1.id then p1 else t) := by
          rw [← hdb1]
          cases hfs : (TimerService.putPomodoro db p1).sessions.find? (fun s => s.id == p1.study_session_id) with
          | none => rfl
          | some ss => rfl
        rw [hpoms]
        intro q hq hqid
        obtain ⟨t, ht, hft⟩ := List.mem_map.mp hq
        by_cases htid : t.id = p1.id
        · rw [if_pos htid] at hft
          rw [← hft]
          exact hp1completed
        · rw [if_neg htid] at hft
          rw [← hft] at hqid
          rw [hqid] at htid
          rw [hp1id] at htid
          exact absurd rfl htid
      exact ⟨hp1completed, hall, complete_on_all_completed db1 now2 pomodoro_id user_id er2 intr2 hall⟩

unseal Rat.add Rat.sub Rat.mul Rat.inv in
/-- C10 witness: completing the fixture uncompleted work cycle succeeds,
and a second completion call on the same cycle id fails not-found. -/
theorem timer_c10_witness :
    (match TimerService.complete_pomodoro_cycle fixDB 1500 4 7 none 0 with
     | Except.ok r => r.1.completed = true ∧ TimerService.complete_pomodoro_cycle r.2 1500 4 7 none 0 = Except.error (SError.notFound "Active Pomodoro cycle not found")
     | Except.error _ => False) := by
  cases h : TimerService.complete_pomodoro_cycle fixDB 1500 4 7 none 0 with
  | ok r =>
    have h2 := (timer_c10 fixDB 1500 1500 4 7 none none 0 0).2 r.1 r.2 (by rw [h])
    exact ⟨h2.1, h2.2.2⟩
  | error e =>
    have hx : exceptOk (TimerService.complete_pomodoro_cycle fixDB 1500 4 7 none 0) = true := by decide
    rw [h] at hx
    simp [exceptOk] at hx

theorem le_mergeMax (v : Int) (o : Option Int) : v ≤ mergeMax v o := by
  cases o with
  | none => exact le_refl v
  | some x => exact le_max_left v x

theorem mergeMax_eq_self (v : Int) (o : Option Int) (h : suppliedLE o v) : mergeMax v o = v := by
  cases o with
  | none => rfl
  | some x => exact max_eq_left h

/-- The timing update never touches the activity counters or the flags. -/
theorem update_timing_counters (x : StudySession) (now : Rat) :
    (TimerService.update_session_timing x now).pages_visited = x.pages_visited ∧
    (TimerService.update_session_timing x now).pages_completed = x.pages_completed ∧
    (TimerService.update_session_timing x now).clicks_count = x.clicks_count ∧
    (TimerService.update_session_timing x now).scroll_events = x.scroll_events ∧
    (TimerService.update_session_timing x now).interruptions = x.interruptions := by
  unfold TimerService.update_session_timing
  dsimp only
  split <;> exact ⟨rfl, rfl, rfl, rfl, rfl⟩

/-- C4 counterexample: the stored page activity_count after the update is
0, not max(previous, supplied) = 5: the supplied value is discarded by the
clicks + scrolls + zoom recomputation. -/
theorem timer_c4_counterexample :
    ((TimerService.update_page_activity fixDB 3 7 fixActivityCountOnly).map (fun r => r.1.activity_count) = Except.ok 0) ∧
    ¬((TimerService.update_page_activity fixDB 3 7 fixActivityCountOnly).map (fun r => r.1.activity_count) = Except.ok (max fixPageTime.activity_count 5)) :=
  ⟨by decide, by decide⟩

/-- C4 (amended): session activity updates merge every supplied counter
with maximum-wins, so counters never decrease and an update whose supplied
values do not exceed the stored ones changes no counter; page activity
updates do the same for the six real counters, but activity_count is then
recomputed as click_count + scroll_count + zoom_changes, discarding any
supplied activity_count; it still never decreases when it equalled that
sum before the call, as every engine-created page timer does. -/
theorem timer_c4 (db : DB) (now : Rat) (session_id user_id page_time_id : Nat)
    (a : SessionActivityUpdate) (pa : PageTimeUpdate) :
    (∀ s s1 db1, TimerService.get_user_session db session_id user_id = some s →
      TimerService.update_session_activity db now session_id user_id a = Except.ok (s1, db1) →
      (s1.pages_visited = mergeMax s.pages_visited a.pages_visited ∧
       s1.pages_completed = mergeMax s.pages_completed a.pages_completed ∧
       s1.clicks_count = mergeMax s.clicks_count a.clicks_count ∧
       s1.scroll_events = mergeMax s.scroll_events a.scroll_events ∧
       s1.interruptions = mergeMax s.interruptions a.interruptions) ∧
      (s.pages_visited ≤ s1.pages_visited ∧ s.pages_completed ≤ s1.pages_completed ∧
       s.clicks_count ≤ s1.clicks_count ∧ s.scroll_events ≤ s1.scroll_events ∧
       s.interruptions ≤ s1.interruptions) ∧
      (suppliedLE a.pages_visited s.pages_visited → suppliedLE a.pages_completed s.pages_completed →
       suppliedLE a.clicks_count s.clicks_count → suppliedLE a.scroll_events s.scroll_events →
       suppliedLE a.interruptions s.interruptions →
       (s1.pages_visited = s.pages_visited ∧ s1.pages_completed = s.pages_completed ∧
        s1.clicks_count = s.clicks_count ∧ s1.scroll_events = s.scroll_events ∧
        s1.interruptions = s.interruptions))) ∧
    (∀ p p1 db1, db.pageTimes.find? (fun q => q.id == page_time_id && TimerService.session_user_matches db q.session_id user_id) = some p →
      TimerService.update_page_activity db page_time_id user_id pa = Except.ok (p1, db1) →
      (p1.click_count = mergeMax p.click_count pa.click_count ∧
       p1.scroll_count = mergeMax p.scroll_count pa.scroll_count ∧
       p1.zoom_changes = mergeMax p.zoom_changes pa.zoom_changes ∧
       p1.notes_created = mergeMax p.notes_created pa.notes_created ∧
       p1.highlights_made = mergeMax p.highlights_made pa.highlights_made ∧
       p1.bookmarks_added = mergeMax p.bookmarks_added pa.bookmarks_added) ∧
      p1.activity_count = p1.click_count + p1.scroll_count + p1.zoom_changes ∧
      (p.activity_count = p.click_count + p.scroll_count + p.zoom_changes →
        p.activity_count ≤ p1.activity_count)) := by
  constructor
  · intro s s1 db1 hfind hok
    unfold TimerService.update_session_activity at hok
    rw [hfind] at hok
    dsimp only at hok
    by_cases h1 : s.is_active = false
    · rw [if_pos h1] at hok
      exact absurd hok (by simp)
    · rw [if_neg h1] at hok
      simp only [Except.ok.injEq, Prod.mk.injEq] at hok
      obtain ⟨hA, _⟩ := hok
      have htc := update_timing_counters (TimerService.apply_session_activity s a) now
      rw [← hA]
      obtain ⟨t1, t2, t3, t4, t5⟩ := htc
      rw [t1, t2, t3, t4, t5]
      refine ⟨⟨rfl, rfl, rfl, rfl, rfl⟩, ⟨le_mergeMax _ _, le_mergeMax _ _, le_mergeMax _ _, le_mergeMax _ _, le_mergeMax _ _⟩, ?_⟩
      intro m1 m2 m3 m4 m5
      exact ⟨mergeMax_eq_self _ _ m1, mergeMax_eq_self _ _ m2, mergeMax_eq_self _ _ m3, mergeMax_eq_self _ _ m4, mergeMax_eq_self _ _ m5⟩
  · intro p p1 db1 hfind hok
    unfold TimerService.update_page_activity at hok
    rw [hfind] at hok
    dsimp only at hok
    simp only [Except.ok.injEq, Prod.mk.injEq] at hok
    obtain ⟨hA, _⟩ := hok
    rw [← hA]
    refine ⟨⟨rfl, rfl, rfl, rfl, rfl, rfl⟩, rfl, ?_⟩
    intro hsum
    rw [hsum]
    have l1 := le_mergeMax p.click_count pa.click_count
    have l2 := le_mergeMax p.scroll_count pa.scroll_count
    have l3 := le_mergeMax p.zoom_changes pa.zoom_changes
    show p.click_count + p.scroll_count + p.zoom_changes ≤ mergeMax p.click_count pa.click_count + mergeMax p.scroll_count pa.scroll_count + mergeMax p.zoom_changes pa.zoom_changes
    omega

unseal Rat.add Rat.sub Rat.mul Rat.inv in
/-- C4 witness: the amended merge semantics at the fixture store, for both
a session activity update and a page activity update. -/
theorem timer_c4_witness :
    (match TimerService.update_session_activity fixDB 600 2 7 fixSessionActivity with
     | Except.ok r => r.1.pages_visited = mergeMax fixSession.pages_visited fixSessionActivity.pages_visited ∧ fixSession.clicks_count ≤ r.1.clicks_count
     | Except.error _ => False) ∧
    (match TimerService.update_page_activity fixDB 3 7 fixActivityCountOnly with
     | Except.ok r => r.1.activity_count = r.1.click_count + r.1.scroll_count + r.1.zoom_changes ∧ fixPageTime.activity_count ≤ r.1.activity_count
     | Except.error _ => False) := by
  constructor
  · cases h : TimerService.update_session_activity fixDB 600 2 7 fixSessionActivity with
    | ok r =>
      have h2 := (timer_c4 fixDB 600 2 7 3 fixSessionActivity fixActivityCountOnly).1 fixSession r.1 r.2 (by decide) (by rw [h])
      exact ⟨h2.1.1, h2.2.1.2.2.1⟩
    | error e =>
      have hx : exceptOk (TimerService.update_session_activity fixDB 600 2 7 fixSessionActivity) = true := by decide
      rw [h] at hx
      simp [exceptOk] at hx
  · cases h : TimerService.update_page_activity fixDB 3 7 fixActivityCountOnly with
    | ok r =>
      have h2 := (timer_c4 fixDB 600 2 7 3 fixSessionActivity fixActivityCountOnly).2 fixPageTime r.1 r.2 (by decide) (by rw [h])
      exact ⟨h2.2.1, h2.2.2 (by decide)⟩
    | error e =>
      have hx : exceptOk (TimerService.update_page_activity fixDB 3 7 fixActivityCountOnly) = true := by decide
      rw [h] at hx
      simp [exceptOk] at hx

unseal Rat.add Rat.sub Rat.mul Rat.inv in
/-- C5 counterexample: starting a session whose topic id 99 is not
resolvable in the store succeeds and creates a new session anyway (the
session count grows from 1 to 2), instead of failing with NotFoundError
as the claim requires. -/
theorem timer_c5_counterexample :
    exceptOk (TimerService.start_session fixDB 600 fixCreate99 7) = true ∧
    fixDB.topics.find? (fun t => t.id == fixCreate99.topic_id) = none ∧
    (TimerService.start_session fixDB 600 fixCreate99 7).map (fun r => r.2.sessions.length) = Except.ok 2 :=
  ⟨by decide, by decide, by decide⟩

/-- C5 (amended): StartSession requires only the document to be resolvable
for the user: when no matching, owned, not-deleted PDF exists the call
fails with NotFoundError (and, the transaction never being committed, no
session is created); when the PDF resolves the call succeeds and appends
exactly one new active session; the topic store is never consulted, so an
unresolvable topic does not affect the outcome. -/
theorem timer_c5 (db : DB) (now : Rat) (session_data : StudySessionCreate) (user_id : Nat) :
    (db.pdfs.find? (fun p => p.id == session_data.pdf_id && p.user_id == user_id && !p.is_deleted) = none →
      TimerService.start_session db now session_data user_id = Except.error (SError.notFound "PDF not found")) ∧
    (∀ pdf, db.pdfs.find? (fun p => p.id == session_data.pdf_id && p.user_id == user_id && !p.is_deleted) = some pdf →
      exceptOk (TimerService.start_session db now session_data user_id) = true) ∧
    (∀ s1 db1, TimerService.start_session db now session_data user_id = Except.ok (s1, db1) →
      db1.sessions.length = db.sessions.length + 1 ∧ s1 ∈ db1.sessions ∧ s1.user_id = user_id ∧
      s1.is_active = true ∧ s1.topic_id = session_data.topic_id) ∧
    (∀ ts : List Topic, exceptOk (TimerService.start_session { db with topics := ts } now session_data user_id) = exceptOk (TimerService.start_session db now session_data user_id)) := by
  refine ⟨?_, ?_, ?_, ?_⟩
  · intro h
    unfold TimerService.start_session
    rw [h]
  · intro pdf h
    unfold TimerService.start_session
    rw [h]
    rfl
  · intro s1 db1 hok
    unfold TimerService.start_session at hok
    cases hfind : db.pdfs.find? (fun p => p.id == session_data.pdf_id && p.user_id == user_id && !p.is_deleted) with
    | none =>
      rw [hfind] at hok
      exact absurd hok (by simp)
    | some pdf =>
      rw [hfind] at hok
      dsimp only at hok
      simp only [Except.ok.injEq, Prod.mk.injEq] at hok
      obtain ⟨hA, hB⟩ := hok
      refine ⟨?_, ?_, ?_, ?_, ?_⟩
      · rw [← hB]
        simp [TimerService.end_existing_sessions]
      · rw [← hB, ← hA]
        simp [TimerService.end_existing_sessions]
      · rw [← hA]
      · rw [← hA]
      · rw [← hA]
  · intro ts
    unfold TimerService.start_session
    have hpdfs : ({ db with topics := ts } : DB).pdfs = db.pdfs := rfl
    rw [hpdfs]
    cases hfind : db.pdfs.find? (fun p => p.id == session_data.pdf_id && p.user_id == user_id && !p.is_deleted) with
    | none => rfl
    | some pdf => rfl

unseal Rat.add Rat.sub Rat.mul Rat.inv in
/-- C5 witness: the amended behaviour at the fixture store: an unknown PDF
fails not-found, and a resolvable PDF with an unresolvable topic creates
exactly one new active session. -/
theorem timer_c5_witness :
    TimerService.start_session fixDB 600 fixCreate42 7 = Except.error (SError.notFound "PDF not found") ∧
    (match TimerService.start_session fixDB 600 fixCreate99 7 with
     | Except.ok r => r.2.sessions.length = fixDB.sessions.length + 1 ∧ r.1.is_active = true
     | Except.error _ => False) := by
  constructor
  · exact (timer_c5 fixDB 600 fixCreate42 7).1 (by decide)
  · cases h : TimerService.start_session fixDB 600 fixCreate99 7 with
    | ok r =>
      have h3 := (timer_c5 fixDB 600 fixCreate99 7).2.2.1 r.1 r.2 (by rw [h])
      exact ⟨h3.1, h3.2.2.2.1⟩
    | error e =>
      have hx : exceptOk (TimerService.start_session fixDB 600 fixCreate99 7) = true := by decide
      rw [h] at hx
      simp [exceptOk] at hx

unseal Rat.add Rat.sub Rat.mul Rat.inv in
/-- C8 counterexample: for a document with zero prior sessions the code
returns confidence low, but the average speed is 2 (taken from a text
sample of the same difficulty), not the claimed 0.5 fallback, and the
estimated minutes are 1, not remaining/avg adjusted by the multiplier
(which would be 1.2 even at the actual average): the code truncates to an
integer before and after the difficulty adjustment. -/
theorem timer_c8_counterexample :
    (TimerService.calculate_reading_completion_estimate fixDBestimate 1 7).map (fun e => ((e.estimated_minutes : Rat), e.avg_reading_speed, e.confidence_level, e.based_on_sessions)) = Except.ok (1, 2, "low", 0) ∧
    ¬((2 : Rat) = 1/2) ∧
    ¬((1 : Rat) = ((max 0 (fixPdf.total_pages - fixPdf.current_page + 1) : Int) : Rat) / 2 * (6/5)) :=
  ⟨by decide, by decide, by decide⟩

/-- C8 (amended): the completion estimate uses remaining pages clamped at
zero, an average speed from the same-difficulty text samples of the user
(falling back to 0.5 when there are none, or when their average is zero,
independently of the session count), estimated minutes equal to the
integer truncation of remaining/avg, truncated again after the difficulty
multiplier from the table 1 to 0.8, 2 to 0.9, 3 to 1.0, 4 to 1.2, 5 to
1.5 (default 1.0); confidence is high at 3 or more prior sessions on the
document, medium at 1 or more, and low at zero. -/
theorem timer_c8 (db : DB) (pdf_id user_id : Nat) (pdf : PDF) (e : CompletionEstimate)
    (hfind : db.pdfs.find? (fun p => p.id == pdf_id && p.user_id == user_id && !p.is_deleted) = some pdf)
    (hok : TimerService.calculate_reading_completion_estimate db pdf_id user_id = Except.ok e) :
    e.remaining_pages = max 0 (pdf.total_pages - pdf.current_page + 1) ∧
    e.estimated_minutes = pyInt ((pyInt ((e.remaining_pages : Rat) / e.avg_reading_speed) : Rat) * TimerService.difficulty_multiplier pdf.difficulty_rating) ∧
    e.difficulty_adjustment = TimerService.difficulty_multiplier pdf.difficulty_rating ∧
    e.based_on_sessions = (db.sessions.filter (fun s => s.user_id == user_id && s.pdf_id == pdf_id)).length ∧
    e.confidence_level = (if 3 ≤ e.based_on_sessions then "high" else if 1 ≤ e.based_on_sessions then "medium" else "low") ∧
    (db.readingSpeeds.filter (fun r => r.user_id == user_id && r.content_type == "text" && r.difficulty_level == pdf.difficulty_rating) = [] → e.avg_reading_speed = 1/2) ∧
    (e.based_on_sessions = 0 → e.confidence_level = "low") := by
  unfold TimerService.calculate_reading_completion_estimate at hok
  rw [hfind] at hok
  dsimp only at hok
  simp only [Except.ok.injEq] at hok
  subst hok
  refine ⟨rfl, rfl, rfl, rfl, rfl, ?_, ?_⟩
  · intro h
    show (if (db.readingSpeeds.filter (fun r => r.user_id == user_id && r.content_type == "text" && r.difficulty_level == pdf.difficulty_rating)).isEmpty = true then (1:Rat)/2 else _) = 1/2
    rw [h]
    rfl
  · intro h0
    show (if 3 ≤ (db.sessions.filter (fun s => s.user_id == user_id && s.pdf_id == pdf_id)).length then "high" else if 1 ≤ (db.sessions.filter (fun s => s.user_id == user_id && s.pdf_id == pdf_id)).length then "medium" else "low") = "low"
    have h0s : (db.sessions.filter (fun s => s.user_id == user_id && s.pdf_id == pdf_id)).length = 0 := h0
    rw [h0s]
    rfl

unseal Rat.add Rat.sub Rat.mul Rat.inv in
/-- C8 witness: the amended description at the fixture estimate store,
where the document has zero prior sessions. -/
theorem timer_c8_witness :
    (match TimerService.calculate_reading_completion_estimate fixDBestimate 1 7 with
     | Except.ok e => e.confidence_level = "low" ∧ e.estimated_minutes = pyInt ((pyInt ((e.remaining_pages : Rat) / e.avg_reading_speed) : Rat) * TimerService.difficulty_multiplier fixPdf.difficulty_rating)
     | Except.error _ => False) := by
  cases h : TimerService.calculate_reading_completion_estimate fixDBestimate 1 7 with
  | ok e =>
    have h8 := timer_c8 fixDBestimate 1 7 fixPdf e (by decide) h
    refine ⟨h8.2.2.2.2.2.2 ?_, h8.2.1⟩
    rw [h8.2.2.2.1]
    rfl
  | error er =>
    have hx : exceptOk (TimerService.calculate_reading_completion_estimate fixDBestimate 1 7) = true := by decide
    rw [h] at hx
    simp [exceptOk] at hx

/-
  Frame lemmas: which part of the store each write step touches.
-/

theorem putSession_frame (db : DB) (s : StudySession) :
    (TimerService.putSession db s).pageTimes = db.pageTimes ∧
    (TimerService.putSession db s).pomodoros = db.pomodoros ∧
    (TimerService.putSession db s).pdfs = db.pdfs ∧
    (TimerService.putSession db s).topics = db.topics ∧
    (TimerService.putSession db s).readingSpeeds = db.readingSpeeds ∧
    (TimerService.putSession db s).userStats = db.userStats ∧
    (TimerService.putSession db s).nextId = db.nextId :=
  ⟨rfl, rfl, rfl, rfl, rfl, rfl, rfl⟩

theorem update_pdf_statistics_frame (db : DB) (now : Rat) (s : StudySession) :
    (TimerService.update_pdf_statistics db now s).sessions = db.sessions ∧
    (TimerService.update_pdf_statistics db now s).pageTimes = db.pageTimes ∧
    (TimerService.update_pdf_statistics db now s).pomodoros = db.pomodoros ∧
    (TimerService.update_pdf_statistics db now s).topics = db.topics ∧
    (TimerService.update_pdf_statistics db now s).readingSpeeds = db.readingSpeeds ∧
    (TimerService.update_pdf_statistics db now s).userStats = db.userStats ∧
    (TimerService.update_pdf_statistics db now s).nextId = db.nextId := by
  unfold TimerService.update_pdf_statistics
  cases db.pdfs.find? (fun p => p.id == s.pdf_id) <;> exact ⟨rfl, rfl, rfl, rfl, rfl, rfl, rfl⟩

theorem update_topic_statistics_frame (db : DB) (now : Rat) (s : StudySession) :
    (TimerService.update_topic_statistics db now s).sessions = db.sessions ∧
    (TimerService.update_topic_statistics db now s).pageTimes = db.pageTimes ∧
    (TimerService.update_topic_statistics db now s).pomodoros = db.pomodoros ∧
    (TimerService.update_topic_statistics db now s).pdfs = db.pdfs ∧
    (TimerService.update_topic_statistics db now s).readingSpeeds = db.readingSpeeds ∧
    (TimerService.update_topic_statistics db now s).userStats = db.userStats ∧
    (TimerService.update_topic_statistics db now s).nextId = db.nextId := by
  unfold TimerService.update_topic_statistics
  cases db.topics.find? (fun t => t.id == s.topic_id) <;> exact ⟨rfl, rfl, rfl, rfl, rfl, rfl, rfl⟩

theorem create_reading_speed_entry_frame (db : DB) (s : StudySession) :
    (TimerService.create_reading_speed_entry db s).sessions = db.sessions ∧
    (TimerService.create_reading_speed_entry db s).pageTimes = db.pageTimes ∧
    (TimerService.create_reading_speed_entry db s).pomodoros = db.pomodoros ∧
    (TimerService.create_reading_speed_entry db s).pdfs = db.pdfs ∧
    (TimerService.create_reading_speed_entry db s).topics = db.topics ∧
    (TimerService.create_reading_speed_entry db s).userStats = db.userStats ∧
    (TimerService.create_reading_speed_entry db s).nextId = db.nextId := by
  unfold TimerService.create_reading_speed_entry
  dsimp only
  split <;> exact ⟨rfl, rfl, rfl, rfl, rfl, rfl, rfl⟩

theorem update_user_statistics_frame (db : DB) (now : Rat) (user_id : Nat) (s : StudySession) :
    (TimerService.update_user_statistics db now user_id s).sessions = db.sessions ∧
    (TimerService.update_user_statistics db now user_id s).pageTimes = db.pageTimes ∧
    (TimerService.update_user_statistics db now user_id s).pomodoros = db.pomodoros ∧
    (TimerService.update_user_statistics db now user_id s).pdfs = db.pdfs ∧
    (TimerService.update_user_statistics db now user_id s).topics = db.topics ∧
    (TimerService.update_user_statistics db now user_id s).readingSpeeds = db.readingSpeeds ∧
    (TimerService.update_user_statistics db now user_id s).nextId = db.nextId := by
  unfold TimerService.update_user_statistics
  cases db.userStats.find? (fun u => u.user_id == user_id && u.stat_type == "daily" && dayOf u.stat_date == dayOf now) <;> exact ⟨rfl, rfl, rfl, rfl, rfl, rfl, rfl⟩

/-- The model end_session sets the terminal flags and the end timestamp
and touches neither the identity fields nor the activity counters. -/
theorem end_session_model_spec (s : StudySession) (now : Rat) :
    (s.end_session_model now).id = s.id ∧ (s.end_session_model now).user_id = s.user_id ∧
    (s.end_session_model now).is_deleted = s.is_deleted ∧ (s.end_session_model now).is_active = false ∧
    (s.end_session_model now).is_paused = false ∧ (s.end_session_model now).end_time = some now ∧
    (s.end_session_model now).pdf_id = s.pdf_id ∧ (s.end_session_model now).active_minutes = s.active_minutes :=
  ⟨rfl, rfl, rfl, rfl, rfl, rfl, rfl, rfl⟩

/-- Rating and notes assignment preserves all the other fields. -/
theorem apply_rating_notes_spec (s : StudySession) (r : Option Int) (n : Option String) :
    (TimerService.apply_rating_notes s r n).id = s.id ∧
    (TimerService.apply_rating_notes s r n).user_id = s.user_id ∧
    (TimerService.apply_rating_notes s r n).is_deleted = s.is_deleted ∧
    (TimerService.apply_rating_notes s r n).pdf_id = s.pdf_id ∧
    (TimerService.apply_rating_notes s r n).active_minutes = s.active_minutes := by
  unfold TimerService.apply_rating_notes
  cases r with
  | none =>
    cases n with
    | none => exact ⟨rfl, rfl, rfl, rfl, rfl⟩
    | some nn =>
      dsimp only
      split <;> exact ⟨rfl, rfl, rfl, rfl, rfl⟩
  | some rr =>
    cases n with
    | none =>
      dsimp only
      split <;> exact ⟨rfl, rfl, rfl, rfl, rfl⟩
    | some nn =>
      dsimp only
      split <;> split <;> exact ⟨rfl, rfl, rfl, rfl, rfl⟩

/-- Decomposition of a successful TimerService.end_session: the found
session, the terminal shape of the returned session, the store writes that
happen (session row replaced, the matching PDF updated) and the parts of
the store that are left untouched (page timers, pomodoros, fresh ids). -/
theorem end_session_decompose (db : DB) (now : Rat) (session_id user_id : Nat)
    (r : Option Int) (n : Option String) (s1 : StudySession) (db1 : DB)
    (hok : TimerService.end_session db now session_id user_id r n = Except.ok (s1, db1)) :
    (∃ s, TimerService.get_user_session db session_id user_id = some s ∧ s.is_active = true ∧
      s1.id = s.id ∧ s1.user_id = s.user_id ∧ s1.is_deleted = s.is_deleted) ∧
    s1.is_active = false ∧ s1.is_paused = false ∧ s1.end_time = some now ∧
    db1.sessions = db.sessions.map (fun t => if t.id = s1.id then s1 else t) ∧
    db1.pageTimes = db.pageTimes ∧ db1.pomodoros = db.pomodoros ∧ db1.nextId = db.nextId ∧
    (∀ pdf, db.pdfs.find? (fun p => p.id == s1.pdf_id) = some pdf →
      ({ pdf with actual_read_time := pdf.actual_read_time + s1.active_minutes, view_count := pdf.view_count + 1, last_viewed_at := some now } : PDF) ∈ db1.pdfs) := by
  unfold TimerService.end_session at hok
  cases hfind : TimerService.get_user_session db session_id user_id with
  | none =>
    rw [hfind] at hok
    exact absurd hok (by simp)
  | some s =>
    rw [hfind] at hok
    dsimp only at hok
    by_cases hact : s.is_active = false
    · rw [if_pos hact] at hok
      exact absurd hok (by simp)
    · rw [if_neg hact] at hok
      simp only [Except.ok.injEq, Prod.mk.injEq] at hok
      obtain ⟨hA, hB⟩ := hok
      have hmod := end_session_model_spec (TimerService.apply_rating_notes s r n) now
      have harn := apply_rating_notes_spec s r n
      constructor
      · refine ⟨s, rfl, ?_, ?_, ?_, ?_⟩
        · cases h : s.is_active with
          | true => rfl
          | false => exact absurd h hact
        · rw [← hA, hmod.1, harn.1]
        · rw [← hA, hmod.2.1, harn.2.1]
        · rw [← hA, hmod.2.2.1, harn.2.2.1]
      refine ⟨by rw [← hA]; exact hmod.2.2.2.1, by rw [← hA]; exact hmod.2.2.2.2.1, by rw [← hA]; exact hmod.2.2.2.2.2.1, ?_, ?_, ?_, ?_, ?_⟩
      · rw [← hB, ← hA]
        rw [(update_user_statistics_frame _ _ _ _).1, (create_reading_speed_entry_frame _ _).1, (update_topic_statistics_frame _ _ _).1, (update_pdf_statistics_frame _ _ _).1]
        rfl
      · rw [← hB]
        rw [(update_user_statistics_frame _ _ _ _).2.1, (create_reading_speed_entry_frame _ _).2.1, (update_topic_statistics_frame _ _ _).2.1, (update_pdf_statistics_frame _ _ _).2.1]
        rfl
      · rw [← hB]
        rw [(update_user_statistics_frame _ _ _ _).2.2.1, (create_reading_speed_entry_frame _ _).2.2.1, (update_topic_statistics_frame _ _ _).2.2.1, (update_pdf_statistics_frame _ _ _).2.2.1]
        rfl
      · rw [← hB]
        rw [(update_user_statistics_frame _ _ _ _).2.2.2.2.2.2, (create_reading_speed_entry_frame _ _).2.2.2.2.2.2, (update_topic_statistics_frame _ _ _).2.2.2.2.2.2, (update_pdf_statistics_frame _ _ _).2.2.2.2.2.2]
        rfl
      · intro pdf hpdf
        rw [← hA] at hpdf
        rw [← hB, ← hA]
        rw [(update_user_statistics_frame _ _ _ _).2.2.2.1, (create_reading_speed_entry_frame _ _).2.2.2.1, (update_topic_statistics_frame _ _ _).2.2.2.1]
        unfold TimerService.update_pdf_statistics
        have hps : (TimerService.putSession db ((TimerService.apply_rating_notes s r n).end_session_model now)).pdfs = db.pdfs := rfl
        rw [hps, hpdf]
        dsimp only
        unfold TimerService.putPdf
        rw [hps]
        refine List.mem_map.mpr ⟨pdf, List.mem_of_find?_eq_some hpdf, ?_⟩
        rw [if_pos rfl]

/-- Closing a page timer sets its end timestamp and keeps its id. -/
theorem end_page_timing_spec (p : PageTime) (now : Rat) :
    (p.end_page_timing now).id = p.id ∧ (p.end_page_timing now).end_time = some now := by
  unfold PageTime.end_page_timing
  dsimp only
  split <;> exact ⟨rfl, rfl⟩

unseal Rat.add Rat.sub Rat.mul Rat.inv in
/-- C1 counterexample: ending the fixture session, whose page timer 3 is
open, succeeds yet leaves that timer open: one page timer without an end
timestamp remains, where the claim requires zero. -/
theorem timer_c1_counterexample :
    (TimerService.end_session fixDB 600 2 7 none none).map (fun r => (r.2.pageTimes.filter (fun p => p.end_time.isNone)).length) = Except.ok 1 ∧
    ¬((TimerService.end_session fixDB 600 2 7 none none).map (fun r => (r.2.pageTimes.filter (fun p => p.end_time.isNone)).length) = Except.ok 0) :=
  ⟨by decide, by decide⟩

/-- C1 (amended): a successful EndSession leaves every PageTimer row of the
store exactly as it was, open ones included; an open PageTimer of a
session is closed only when a new page timer is opened for that session,
by OpenPageTimer (start_page_timer), which writes back the closed record
with its end timestamp set. -/
theorem timer_c1 :
    (∀ db now session_id user_id r n s1 db1,
      TimerService.end_session db now session_id user_id r n = Except.ok (s1, db1) →
      db1.pageTimes = db.pageTimes) ∧
    (∀ db now page_data user_id pt db1 p,
      TimerService.start_page_timer db now page_data user_id = Except.ok (pt, db1) →
      db.pageTimes.find? (fun q => q.session_id == page_data.session_id && q.end_time.isNone) = some p →
      (p.end_page_timing now) ∈ db1.pageTimes ∧ (p.end_page_timing now).end_time = some now) := by
  constructor
  · intro db now session_id user_id r n s1 db1 hok
    exact (end_session_decompose db now session_id user_id r n s1 db1 hok).2.2.2.2.2.1
  · intro db now page_data user_id pt db1 p hok hopen
    unfold TimerService.start_page_timer at hok
    cases hfind : TimerService.get_user_session db page_data.session_id user_id with
    | none =>
      rw [hfind] at hok
      exact absurd hok (by simp)
    | some s =>
      rw [hfind] at hok
      dsimp only at hok
      rw [hopen] at hok
      dsimp only at hok
      simp only [Except.ok.injEq, Prod.mk.injEq] at hok
      obtain ⟨_, hB⟩ := hok
      refine ⟨?_, (end_page_timing_spec p now).2⟩
      rw [← hB]
      dsimp only
      refine List.mem_append_left _ ?_
      unfold TimerService.putPageTime
      dsimp only
      refine List.mem_map.mpr ⟨p, List.mem_of_find?_eq_some hopen, ?_⟩
      rw [if_pos (end_page_timing_spec p now).1.symm]

unseal Rat.add Rat.sub Rat.mul Rat.inv in
/-- C1 witness: the amended behaviour at the fixture store: ending the
session keeps the page timers untouched, and opening page 2 closes the
open timer for page 1. -/
theorem timer_c1_witness :
    (match TimerService.end_session fixDB 600 2 7 none none with
     | Except.ok rr => rr.2.pageTimes = fixDB.pageTimes
     | Except.error _ => False) ∧
    (match TimerService.start_page_timer fixDB 300 { session_id := 2, pdf_id := 1, page_number := 2, estimated_words := 400 } 7 with
     | Except.ok rr => (fixPageTime.end_page_timing 300) ∈ rr.2.pageTimes ∧ (fixPageTime.end_page_timing 300).end_time = some 300
     | Except.error _ => False) := by
  constructor
  · cases h : TimerService.end_session fixDB 600 2 7 none none with
    | ok rr => exact timer_c1.1 fixDB 600 2 7 none none rr.1 rr.2 (by rw [h])
    | error e =>
      have hx : exceptOk (TimerService.end_session fixDB 600 2 7 none none) = true := by decide
      rw [h] at hx
      simp [exceptOk] at hx
  · cases h : TimerService.start_page_timer fixDB 300 { session_id := 2, pdf_id := 1, page_number := 2, estimated_words := 400 } 7 with
    | ok rr => exact timer_c1.2 fixDB 300 { session_id := 2, pdf_id := 1, page_number := 2, estimated_words := 400 } 7 rr.1 rr.2 fixPageTime (by rw [h]) (by decide)
    | error e =>
      have hx : exceptOk (TimerService.start_page_timer fixDB 300 { session_id := 2, pdf_id := 1, page_number := 2, estimated_words := 400 } 7) = true := by decide
      rw [h] at hx
      simp [exceptOk] at hx

/-- C9: a session force-ended implicitly by StartSession is replaced by its
model-ended image (end timestamp set, scores and XP computed by
end_session_model), but none of the other EndSession effects happen: the
reading-speed samples, PDFs, topics and user statistics are exactly those
of the prior store; by contrast an explicit EndSession updates the
document row (cumulative read time, view count, last-viewed timestamp). -/
theorem timer_c9 :
    (∀ db now session_data user_id s1 db1,
      TimerService.start_session db now session_data user_id = Except.ok (s1, db1) →
      db1.readingSpeeds = db.readingSpeeds ∧ db1.pdfs = db.pdfs ∧ db1.topics = db.topics ∧
      db1.userStats = db.userStats ∧ db1.pageTimes = db.pageTimes ∧
      (∀ s ∈ db.sessions, s.user_id = user_id → s.is_active = true → s.is_deleted = false →
        (s.end_session_model now) ∈ db1.sessions ∧ (s.end_session_model now).end_time = some now ∧
        (s.end_session_model now).is_active = false)) ∧
    (∀ db now session_id user_id r n s1 db1 pdf,
      TimerService.end_session db now session_id user_id r n = Except.ok (s1, db1) →
      db.pdfs.find? (fun p => p.id == s1.pdf_id) = some pdf →
      ({ pdf with actual_read_time := pdf.actual_read_time + s1.active_minutes, view_count := pdf.view_count + 1, last_viewed_at := some now } : PDF) ∈ db1.pdfs) := by
  constructor
  · intro db now session_data user_id s1 db1 hok
    unfold TimerService.start_session at hok
    cases hfind : db.pdfs.find? (fun p => p.id == session_data.pdf_id && p.user_id == user_id && !p.is_deleted) with
    | none =>
      rw [hfind] at hok
      exact absurd hok (by simp)
    | some pdf =>
      rw [hfind] at hok
      dsimp only at hok
      simp only [Except.ok.injEq, Prod.mk.injEq] at hok
      obtain ⟨_, hB⟩ := hok
      refine ⟨by rw [← hB]; rfl, by rw [← hB]; rfl, by rw [← hB]; rfl, by rw [← hB]; rfl, by rw [← hB]; rfl, ?_⟩
      intro s hmem huser hactive hdel
      refine ⟨?_, rfl, rfl⟩
      rw [← hB]
      dsimp only
      refine List.mem_append_left _ ?_
      unfold TimerService.end_existing_sessions
      dsimp only
      refine List.mem_map.mpr ⟨s, hmem, ?_⟩
      rw [if_pos (by simp [huser, hactive, hdel])]
  · intro db now session_id user_id r n s1 db1 pdf hok hpdf
    exact (end_session_decompose db now session_id user_id r n s1 db1 hok).2.2.2.2.2.2.2.2 pdf hpdf

unseal Rat.add Rat.sub Rat.mul Rat.inv in
/-- C9 witness: starting a new session for user 7 on the fixture store
force-ends the fixture session without touching samples, PDFs, topics or
user statistics, while an explicit EndSession bumps the PDF view count. -/
theorem timer_c9_witness :
    (match TimerService.start_session fixDB 600 fixCreate99 7 with
     | Except.ok rr => rr.2.readingSpeeds = fixDB.readingSpeeds ∧ rr.2.pdfs = fixDB.pdfs ∧ rr.2.userStats = fixDB.userStats ∧ (fixSession.end_session_model 600) ∈ rr.2.sessions
     | Except.error _ => False) ∧
    (match TimerService.end_session fixDB 600 2 7 none none with
     | Except.ok rr => ({ fixPdf with actual_read_time := fixPdf.actual_read_time + rr.1.active_minutes, view_count := fixPdf.view_count + 1, last_viewed_at := some 600 } : PDF) ∈ rr.2.pdfs
     | Except.error _ => False) := by
  constructor
  · cases h : TimerService.start_session fixDB 600 fixCreate99 7 with
    | ok rr =>
      have h9 := timer_c9.1 fixDB 600 fixCreate99 7 rr.1 rr.2 (by rw [h])
      have hmem := h9.2.2.2.2.2 fixSession (by decide) (by decide) (by decide) (by decide)
      exact ⟨h9.1, h9.2.1, h9.2.2.2.1, hmem.1⟩
    | error e =>
      have hx : exceptOk (TimerService.start_session fixDB 600 fixCreate99 7) = true := by decide
      rw [h] at hx
      simp [exceptOk] at hx
  · cases h : TimerService.end_session fixDB 600 2 7 none none with
    | ok rr =>
      have hval : (TimerService.end_session fixDB 600 2 7 none none).map (fun x => x.1.pdf_id) = Except.ok 1 := by decide
      rw [h] at hval
      simp only [Except.map, Except.ok.injEq] at hval
      exact timer_c9.2 fixDB 600 2 7 none none rr.1 rr.2 fixPdf (by rw [h]) (by rw [hval]; decide)
    | error e =>
      have hx : exceptOk (TimerService.end_session fixDB 600 2 7 none none) = true := by decide
      rw [h] at hx
      simp [exceptOk] at hx

/-
  Invariant preservation (C2) helper lemmas.
-/

/-- Distinct primary keys make members with equal ids equal. -/
theorem pairwise_id_unique {l : List StudySession} (h : l.Pairwise (fun a b => a.id ≠ b.id))
    (a b : StudySession) (ha : a ∈ l) (hb : b ∈ l) (hid : a.id = b.id) : a = b := by
  induction l with
  | nil => cases ha
  | cons x xs ih =>
    obtain ⟨hx, hxs⟩ := List.pairwise_cons.mp h
    cases ha with
    | head =>
      cases hb with
      | head => rfl
      | tail _ hb2 => exact absurd hid (hx b hb2)
    | tail _ ha2 =>
      cases hb with
      | head => exact absurd hid.symm (hx a ha2)
      | tail _ hb2 => exact ih hxs ha2 hb2

/-- Extraction of the user-session lookup: membership, id, owner and the
not-deleted flag. -/
theorem get_user_session_spec (db : DB) (session_id user_id : Nat) (s : StudySession)
    (h : TimerService.get_user_session db session_id user_id = some s) :
    s ∈ db.sessions ∧ s.id = session_id ∧ s.user_id = user_id ∧ s.is_deleted = false := by
  unfold TimerService.get_user_session at h
  have hmem := List.mem_of_find?_eq_some h
  have hpred := List.find?_some h
  simp only [Bool.and_eq_true, beq_iff_eq, Bool.not_eq_true'] at hpred
  exact ⟨hmem, hpred.1.1, hpred.1.2, hpred.2⟩

/-- The timing update touches only the timing fields. -/
theorem update_timing_fields (x : StudySession) (now : Rat) :
    (TimerService.update_session_timing x now).id = x.id ∧
    (TimerService.update_session_timing x now).user_id = x.user_id ∧
    (TimerService.update_session_timing x now).is_deleted = x.is_deleted ∧
    (TimerService.update_session_timing x now).is_active = x.is_active ∧
    (TimerService.update_session_timing x now).is_paused = x.is_paused ∧
    (TimerService.update_session_timing x now).end_time = x.end_time := by
  unfold TimerService.update_session_timing
  dsimp only
  split <;> exact ⟨rfl, rfl, rfl, rfl, rfl, rfl⟩

/-- The activity merge touches only the counters. -/
theorem apply_session_activity_fields (x : StudySession) (a : SessionActivityUpdate) :
    (TimerService.apply_session_activity x a).id = x.id ∧
    (TimerService.apply_session_activity x a).user_id = x.user_id ∧
    (TimerService.apply_session_activity x a).is_deleted = x.is_deleted ∧
    (TimerService.apply_session_activity x a).is_active = x.is_active ∧
    (TimerService.apply_session_activity x a).is_paused = x.is_paused ∧
    (TimerService.apply_session_activity x a).end_time = x.end_time :=
  ⟨rfl, rfl, rfl, rfl, rfl, rfl⟩

/-- The model end_session always yields a row satisfying the session
invariant: terminal, unpaused, end timestamp set. -/
theorem sessionOK_end_model (t : StudySession) (now : Rat) : SessionOK (t.end_session_model now) := by
  constructor
  · intro h
    rw [(end_session_model_spec t now).2.2.2.2.1] at h
    exact absurd h (by simp)
  · rw [(end_session_model_spec t now).2.2.2.2.2.1, (end_session_model_spec t now).2.2.2.1]
    simp

/-- Replacing a session row by one with the same id, owner and deletion
flag, satisfying the row invariant, and at most as live, preserves the
store invariant. -/
theorem DBInv_putSession (db : DB) (s s1 : StudySession)
    (hinv : DBInv db) (hmem : s ∈ db.sessions)
    (hid : s1.id = s.id) (huser : s1.user_id = s.user_id) (hdel : s1.is_deleted = s.is_deleted)
    (hokrow : SessionOK s1) (hact : s1.is_active = true → s.is_active = true) :
    DBInv (TimerService.putSession db s1) := by
  obtain ⟨hfresh, hids, hallok, hactive⟩ := hinv
  have hkey : ∀ u ∈ db.sessions, ((fun t => if t.id = s1.id then s1 else t) u).user_id = u.user_id ∧ (liveActive ((fun t => if t.id = s1.id then s1 else t) u) → liveActive u) := by
    intro u hu
    by_cases hcond : u.id = s1.id
    · dsimp only
      rw [if_pos hcond]
      have hu_s : u = s := pairwise_id_unique hids u s hu hmem (hcond.trans hid)
      subst hu_s
      refine ⟨huser, ?_⟩
      intro hl
      obtain ⟨hl1, hl2⟩ := hl
      refine ⟨hact hl1, ?_⟩
      rw [← hdel]
      exact hl2
    · dsimp only
      rw [if_neg hcond]
      exact ⟨rfl, fun h => h⟩
  refine ⟨?_, ?_, ?_, ?_⟩
  · intro t ht
    obtain ⟨u, hu, hfu⟩ := List.mem_map.mp ht
    by_cases hcond : u.id = s1.id
    · rw [if_pos hcond] at hfu
      rw [← hfu]
      show s1.id < db.nextId
      rw [hid]
      exact hfresh s hmem
    · rw [if_neg hcond] at hfu
      rw [← hfu]
      exact hfresh u hu
  · show (db.sessions.map _).Pairwise _
    rw [List.pairwise_map]
    refine List.Pairwise.imp_of_mem ?_ hids
    intro a b ha hb hne
    have hia : ((fun t => if t.id = s1.id then s1 else t) a).id = a.id := by
      dsimp only
      by_cases hcond : a.id = s1.id
      · rw [if_pos hcond, hcond]
      · rw [if_neg hcond]
    have hib : ((fun t => if t.id = s1.id then s1 else t) b).id = b.id := by
      dsimp only
      by_cases hcond : b.id = s1.id
      · rw [if_pos hcond, hcond]
      · rw [if_neg hcond]
    rw [hia, hib]
    exact hne
  · intro t ht
    obtain ⟨u, hu, hfu⟩ := List.mem_map.mp ht
    by_cases hcond : u.id = s1.id
    · rw [if_pos hcond] at hfu
      rw [← hfu]
      exact hokrow
    · rw [if_neg hcond] at hfu
      rw [← hfu]
      exact hallok u hu
  · show (db.sessions.map _).Pairwise _
    rw [List.pairwise_map]
    refine List.Pairwise.imp_of_mem ?_ hactive
    intro a b ha hb hR huser2 hla hlb
    obtain ⟨hua, hla2⟩ := hkey a ha
    obtain ⟨hub, hlb2⟩ := hkey b hb
    exact hR (by rw [← hua, ← hub]; exact huser2) (hla2 hla) (hlb2 hlb)

/-- Force-ending the active sessions of a user preserves the invariant,
changes nothing but the session rows, keeps ids in place, and leaves no
live active session of that user behind. -/
theorem DBInv_end_existing (db : DB) (now : Rat) (user_id : Nat) (hinv : DBInv db) :
    DBInv (TimerService.end_existing_sessions db now user_id) ∧
    (∀ t ∈ (TimerService.end_existing_sessions db now user_id).sessions, t.user_id = user_id → ¬liveActive t) := by
  obtain ⟨hfresh, hids, hallok, hactive⟩ := hinv
  have hg : ∀ u : StudySession, ((fun t => if (t.user_id == user_id && t.is_active && !t.is_deleted) = true then t.end_session_model now else t) u).id = u.id ∧ ((fun t => if (t.user_id == user_id && t.is_active && !t.is_deleted) = true then t.end_session_model now else t) u).user_id = u.user_id ∧ ((fun t => if (t.user_id == user_id && t.is_active && !t.is_deleted) = true then t.end_session_model now else t) u).is_deleted = u.is_deleted ∧ (liveActive ((fun t => if (t.user_id == user_id && t.is_active && !t.is_deleted) = true then t.end_session_model now else t) u) → liveActive u) := by
    intro u
    dsimp only
    by_cases hcond : (u.user_id == user_id && u.is_active && !u.is_deleted) = true
    · rw [if_pos hcond]
      have hspec := end_session_model_spec u now
      refine ⟨hspec.1, hspec.2.1, hspec.2.2.1, ?_⟩
      intro hl
      obtain ⟨hl1, _⟩ := hl
      rw [hspec.2.2.2.1] at hl1
      exact absurd hl1 (by simp)
    · rw [if_neg hcond]
      exact ⟨rfl, rfl, rfl, fun h => h⟩
  constructor
  · refine ⟨?_, ?_, ?_, ?_⟩
    · intro t ht
      obtain ⟨u, hu, hfu⟩ := List.mem_map.mp ht
      show t.id < db.nextId
      rw [← hfu, (hg u).1]
      exact hfresh u hu
    · show (db.sessions.map _).Pairwise _
      rw [List.pairwise_map]
      refine List.Pairwise.imp_of_mem ?_ hids
      intro a b _ _ hne
      rw [(hg a).1, (hg b).1]
      exact hne
    · intro t ht
      obtain ⟨u, hu, hfu⟩ := List.mem_map.mp ht
      rw [← hfu]
      by_cases hcond : (u.user_id == user_id && u.is_active && !u.is_deleted) = true
      · rw [if_pos hcond]
        exact sessionOK_end_model u now
      · rw [if_neg hcond]
        exact hallok u hu
    · show (db.sessions.map _).Pairwise _
      rw [List.pairwise_map]
      refine List.Pairwise.imp_of_mem ?_ hactive
      intro a b _ _ hR huser2 hla hlb
      exact hR (by rw [← (hg a).2.1, ← (hg b).2.1]; exact huser2) ((hg a).2.2.2 hla) ((hg b).2.2.2 hlb)
  · intro t ht huser hlive
    obtain ⟨u, hu, hfu⟩ := List.mem_map.mp ht
    by_cases hcond : (u.user_id == user_id && u.is_active && !u.is_deleted) = true
    · rw [if_pos hcond] at hfu
      obtain ⟨hl1, _⟩ := hlive
      rw [← hfu, (end_session_model_spec u now).2.2.2.1] at hl1
      exact absurd hl1 (by simp)
    · simp only [Bool.and_eq_true, beq_iff_eq, Bool.not_eq_true'] at hcond
      rw [if_neg (by simp only [Bool.and_eq_true, beq_iff_eq, Bool.not_eq_true']; exact hcond)] at hfu
      obtain ⟨hl1, hl2⟩ := hlive
      rw [← hfu] at huser hl1 hl2
      exact hcond ⟨⟨huser, hl1⟩, hl2⟩

/-- The store invariant depends only on the session rows and the id
counter. -/
theorem DBInv_congr (d1 d2 : DB) (hs : d1.sessions = d2.sessions) (hn : d1.nextId = d2.nextId)
    (h : DBInv d1) : DBInv d2 := by
  unfold DBInv at h
  unfold DBInv
  rw [← hs, ← hn]
  exact h

/-- C2: StartSession, PauseSession, ResumeSession, UpdateSessionActivity
and EndSession all preserve the session-state invariant: unique fresh ids,
is_paused implies is_active, the end timestamp is set exactly on inactive
sessions, and no user has two live active sessions. -/
theorem timer_c2 (db : DB) (now : Rat) (hinv : DBInv db) :
    (∀ session_data user_id s1 db1, TimerService.start_session db now session_data user_id = Except.ok (s1, db1) → DBInv db1) ∧
    (∀ session_id user_id reason s1 db1, TimerService.pause_session db now session_id user_id reason = Except.ok (s1, db1) → DBInv db1) ∧
    (∀ session_id user_id s1 db1, TimerService.resume_session db session_id user_id = Except.ok (s1, db1) → DBInv db1) ∧
    (∀ session_id user_id a s1 db1, TimerService.update_session_activity db now session_id user_id a = Except.ok (s1, db1) → DBInv db1) ∧
    (∀ session_id user_id r n s1 db1, TimerService.end_session db now session_id user_id r n = Except.ok (s1, db1) → DBInv db1) := by
  refine ⟨?_, ?_, ?_, ?_, ?_⟩
  · -- StartSession
    intro session_data user_id s1 db1 hok
    unfold TimerService.start_session at hok
    cases hfind : db.pdfs.find? (fun p => p.id == session_data.pdf_id && p.user_id == user_id && !p.is_deleted) with
    | none =>
      rw [hfind] at hok
      exact absurd hok (by simp)
    | some pdf =>
      rw [hfind] at hok
      dsimp only at hok
      simp only [Except.ok.injEq, Prod.mk.injEq] at hok
      obtain ⟨hA, hB⟩ := hok
      obtain ⟨hE, hnolive⟩ := DBInv_end_existing db now user_id hinv
      obtain ⟨hfreshE, hidsE, hokE, hactE⟩ := hE
      rw [← hB]
      unfold DBInv
      dsimp only
      refine ⟨?_, ?_, ?_, ?_⟩
      · intro t ht
        cases List.mem_append.mp ht with
        | inl h => exact Nat.lt_succ_of_lt (hfreshE t h)
        | inr h =>
          rw [List.mem_singleton.mp h]
          exact Nat.lt_succ_self _
      · rw [List.pairwise_append]
        refine ⟨hidsE, List.pairwise_singleton _ _, ?_⟩
        intro x hx y hy
        rw [List.mem_singleton.mp hy]
        exact Nat.ne_of_lt (hfreshE x hx)
      · intro t ht
        cases List.mem_append.mp ht with
        | inl h => exact hokE t h
        | inr h =>
          rw [List.mem_singleton.mp h]
          exact ⟨fun hh => by simp at hh, by simp⟩
      · rw [List.pairwise_append]
        refine ⟨hactE, List.pairwise_singleton _ _, ?_⟩
        intro x hx y hy huser2 hlx hly
        rw [List.mem_singleton.mp hy] at huser2
        exact hnolive x hx huser2 hlx
  · -- PauseSession
    intro session_id user_id reason s1 db1 hok
    unfold TimerService.pause_session at hok
    cases hfind : TimerService.get_user_session db session_id user_id with
    | none =>
      rw [hfind] at hok
      exact absurd hok (by simp)
    | some s =>
      rw [hfind] at hok
      dsimp only at hok
      by_cases hact1 : s.is_active = false
      · rw [if_pos hact1] at hok
        exact absurd hok (by simp)
      · rw [if_neg hact1] at hok
        by_cases hpau : s.is_paused = true
        · rw [if_pos hpau] at hok
          exact absurd hok (by simp)
        · rw [if_neg hpau] at hok
          simp only [Except.ok.injEq, Prod.mk.injEq] at hok
          obtain ⟨hA, hB⟩ := hok
          obtain ⟨hmem, _, _, _⟩ := get_user_session_spec db session_id user_id s hfind
          have hfields := update_timing_fields { s with is_paused := true, pause_count := s.pause_count + 1 } now
          have hactive_true : s.is_active = true := by
            cases h : s.is_active with
            | true => rfl
            | false => exact absurd h hact1
          have hOKs := hinv.2.2.1 s hmem
          have hput := DBInv_putSession db s s1 hinv hmem (by rw [← hA, hfields.1]) (by rw [← hA, hfields.2.1]) (by rw [← hA, hfields.2.2.1]) ?_ ?_
          · rw [hA] at hB
            rw [← hB]
            exact hput
          · constructor
            · intro _
              rw [← hA, hfields.2.2.2.1]
              exact hactive_true
            · rw [← hA, hfields.2.2.2.1, hfields.2.2.2.2.2]
              exact hOKs.2
          · intro _
            exact hactive_true
  · -- ResumeSession
    intro session_id user_id s1 db1 hok
    unfold TimerService.resume_session at hok
    cases hfind : TimerService.get_user_session db session_id user_id with
    | none =>
      rw [hfind] at hok
      exact absurd hok (by simp)
    | some s =>
      rw [hfind] at hok
      dsimp only at hok
      by_cases hact1 : s.is_active = false
      · rw [if_pos hact1] at hok
        exact absurd hok (by simp)
      · rw [if_neg hact1] at hok
        by_cases hpau : s.is_paused = false
        · rw [if_pos hpau] at hok
          exact absurd hok (by simp)
        · rw [if_neg hpau] at hok
          simp only [Except.ok.injEq, Prod.mk.injEq] at hok
          obtain ⟨hA, hB⟩ := hok
          obtain ⟨hmem, _, _, _⟩ := get_user_session_spec db session_id user_id s hfind
          have hactive_true : s.is_active = true := by
            cases h : s.is_active with
            | true => rfl
            | false => exact absurd h hact1
          have hOKs := hinv.2.2.1 s hmem
          have hput := DBInv_putSession db s s1 hinv hmem (by rw [← hA]) (by rw [← hA]) (by rw [← hA]) ?_ ?_
          · rw [hA] at hB
            rw [← hB]
            exact hput
          · constructor
            · intro _
              rw [← hA]
              exact hactive_true
            · rw [← hA]
              exact hOKs.2
          · intro _
            exact hactive_true
  · -- UpdateSessionActivity
    intro session_id user_id a s1 db1 hok
    unfold TimerService.update_session_activity at hok
    cases hfind : TimerService.get_user_session db session_id user_id with
    | none =>
      rw [hfind] at hok
      exact absurd hok (by simp)
    | some s =>
      rw [hfind] at hok
      dsimp only at hok
      by_cases hact1 : s.is_active = false
      · rw [if_pos hact1] at hok
        exact absurd hok (by simp)
      · rw [if_neg hact1] at hok
        simp only [Except.ok.injEq, Prod.mk.injEq] at hok
        obtain ⟨hA, hB⟩ := hok
        obtain ⟨hmem, _, _, _⟩ := get_user_session_spec db session_id user_id s hfind
        have hfields := update_timing_fields (TimerService.apply_session_activity s a) now
        have happ := apply_session_activity_fields s a
        have hactive_true : s.is_active = true := by
          cases h : s.is_active with
          | true => rfl
          | false => exact absurd h hact1
        have hOKs := hinv.2.2.1 s hmem
        have hpaused_imp := hOKs.1
        have hput := DBInv_putSession db s s1 hinv hmem (by rw [← hA, hfields.1, happ.1]) (by rw [← hA, hfields.2.1, happ.2.1]) (by rw [← hA, hfields.2.2.1, happ.2.2.1]) ?_ ?_
        · rw [hA] at hB
          rw [← hB]
          exact hput
        · constructor
          · intro _
            rw [← hA, hfields.2.2.2.1, happ.2.2.2.1]
            exact hactive_true
          · rw [← hA, hfields.2.2.2.1, happ.2.2.2.1, hfields.2.2.2.2.2, happ.2.2.2.2.2]
            exact hOKs.2
        · intro _
          exact hactive_true
  · -- EndSession
    intro session_id user_id r n s1 db1 hok
    obtain ⟨⟨s, hfind, _, hid, huser, hdel⟩, hinact, hnp, hend, hsess, _, _, hnext, _⟩ :=
      end_session_decompose db now session_id user_id r n s1 db1 hok
    obtain ⟨hmem, _, _, _⟩ := get_user_session_spec db session_id user_id s hfind
    have hput := DBInv_putSession db s s1 hinv hmem hid huser hdel ?_ ?_
    · exact DBInv_congr (TimerService.putSession db s1) db1 hsess.symm hnext.symm hput
    · constructor
      · intro hh
        rw [hnp] at hh
        exact absurd hh (by simp)
      · rw [hend, hinact]
        simp
    · intro hh
      rw [hinact] at hh
      exact absurd hh (by simp)

unseal Rat.add Rat.sub Rat.mul Rat.inv in
/-- C2 witness: the invariant holds of the fixture store and is preserved
by a concrete successful Pause on it. -/
theorem timer_c2_witness :
    (match TimerService.pause_session fixDB 600 2 7 none with
     | Except.ok rr => DBInv rr.2
     | Except.error _ => False) := by
  cases h : TimerService.pause_session fixDB 600 2 7 none with
  | ok rr => exact (timer_c2 fixDB 600 (by decide)).2.1 2 7 none rr.1 rr.2 (by rw [h])
  | error e =>
    have hx : exceptOk (TimerService.pause_session fixDB 600 2 7 none) = true := by decide
    rw [h] at hx
    simp [exceptOk] at hx
